import Mathlib

/-!
Verification development for the FactoryOS seed script
(`scripts/seed-factory-data.py`).

The script is a linear sequence of HTTP requests against an external API.
We model it as a deterministic state machine parameterised by a response
oracle `Nat → Resp` (the response to the k-th request issued), a JSON value
type `J` mirroring parsed `json.loads` output, and an exception/exit monad
`M` mirroring Python exceptions (`Halt.crashed`: an uncaught exception such
as a `URLError` or a `JSONDecodeError`) and `sys.exit` (`Halt.exited`).
Date arithmetic (`datetime.now() - timedelta(days=k)`) is embedded through
the proleptic-Gregorian ordinal conversions used by CPython's `datetime`
module (`_ymd2ord` / `_ord2ymd`); `cycleYmd` is CPython's `_ord2ymd`
restricted to one 400-year cycle, with the `n400 * 400` year offset
factored out into `ord2ymd` (an algebraic identity of the original, which
adds `n400 * 400` into the accumulated year), and with CPython's
`leapyear = n1 == 3 and (n4 != 24 or n100 == 3)` replaced by
`_is_leap(year)`, which CPython itself asserts equal.  Console output is
modelled as a list of `OutLine`s carrying the message text: `okL` for the
green check lines printed by `ok()`, `failL` for the red cross lines
printed by `fail()`, `headerL` for `header()`, `rawL` for plain `print`
lines (whose exact text is not load-bearing for any claim).
-/

/-! ## String helpers (Python `in`, `lower`, slicing, zero-padded formats) -/

/-- Substring test on character lists: models the Python `in` operator on
strings. -/
def listContainsSub (needle : List Char) : List Char → Bool
  | [] => needle.isEmpty
  | c :: rest =>
      needle.isPrefixOf (c :: rest) || listContainsSub needle rest

/-- Python `needle in hay` for strings. -/
def strContainsSub (needle hay : String) : Bool :=
  listContainsSub needle.data hay.data

/-- Python `str.lower()` (ASCII, which is all the script compares). -/
def strLower (s : String) : String :=
  String.mk (s.data.map Char.toLower)

/-- Python slicing `s[:n]`. -/
def strTake (s : String) (n : Nat) : String :=
  String.mk (s.data.take n)

/-- Right-pad with spaces, as in the format specs `:12s` / `:8s`. -/
def padRight (s : String) (n : Nat) : String :=
  s ++ String.mk (List.replicate (n - s.length) ' ')

/-- Two-digit zero-padded decimal (strftime `%m`, `%d`, `%H`, `%M`, `%S`). -/
def pad2 (n : Nat) : String :=
  String.mk [Nat.digitChar (n / 10 % 10), Nat.digitChar (n % 10)]

/-- Four-digit zero-padded decimal (strftime `%Y`, for years 1000..9999). -/
def pad4 (n : Nat) : String :=
  String.mk [Nat.digitChar (n / 1000 % 10), Nat.digitChar (n / 100 % 10),
    Nat.digitChar (n / 10 % 10), Nat.digitChar (n % 10)]

/-- Recogniser for the `YYYY-MM-DD` shape. -/
def isYMDfmt (s : String) : Bool :=
  match s.data with
  | [a, b, c, d, e, f, g, h, i, j] =>
      a.isDigit && b.isDigit && c.isDigit && d.isDigit && e == '-' &&
      f.isDigit && g.isDigit && h == '-' && i.isDigit && j.isDigit
  | _ => false

/-! ## Gregorian calendar, following CPython `datetime` internals -/

/-- CPython `_is_leap`. -/
def isLeap (y : Nat) : Bool := y % 4 == 0 && (y % 100 != 0 || y % 400 == 0)

/-- CPython `_DAYS_IN_MONTH` (non-leap February). -/
def daysInMonthTbl : Nat → Nat
  | 1 => 31 | 2 => 28 | 3 => 31 | 4 => 30 | 5 => 31 | 6 => 30
  | 7 => 31 | 8 => 31 | 9 => 30 | 10 => 31 | 11 => 30 | 12 => 31
  | _ => 0

/-- CPython `_DAYS_BEFORE_MONTH`. -/
def daysBeforeMonthTbl : Nat → Nat
  | 1 => 0 | 2 => 31 | 3 => 59 | 4 => 90 | 5 => 120 | 6 => 151
  | 7 => 181 | 8 => 212 | 9 => 243 | 10 => 273 | 11 => 304 | 12 => 334
  | _ => 0

/-- CPython `_days_in_month`. -/
def daysInMonth (y m : Nat) : Nat :=
  if m == 2 && isLeap y then 29 else daysInMonthTbl m

/-- CPython `_days_before_year`. -/
def daysBeforeYear (y : Nat) : Nat :=
  (y - 1) * 365 + (y - 1) / 4 - (y - 1) / 100 + (y - 1) / 400

/-- CPython `_days_before_month`. -/
def daysBeforeMonth (y m : Nat) : Nat :=
  daysBeforeMonthTbl m + (if 2 < m && isLeap y then 1 else 0)

/-- A calendar date as held by a Python `datetime.date`. -/
structure Date where
  year : Nat
  month : Nat
  day : Nat
deriving DecidableEq

/-- CPython `_ymd2ord`: proleptic-Gregorian ordinal of a date. -/
def ymd2ord (d : Date) : Nat :=
  daysBeforeYear d.year + daysBeforeMonth d.year d.month + d.day

/-- The month/day search at the end of CPython `_ord2ymd`, which depends on
the year only through its leapness: `n` is the zero-based day within the
year. -/
def monthDayOf (year n : Nat) : Nat × Nat :=
  let month := (n + 50) / 32
  let preceding := daysBeforeMonthTbl month + (if 2 < month && isLeap year then 1 else 0)
  if n < preceding then
    let month2 := month - 1
    let preceding2 := preceding - (daysInMonthTbl month2 + (if month2 == 2 && isLeap year then 1 else 0))
    (month2, n - preceding2 + 1)
  else
    (month, n - preceding + 1)

/-- CPython `_ord2ymd` within one 400-year cycle: maps a residue
`r < 146097` (days since the start of the cycle) to the date `r + 1` days
into the cycle, counting the cycle as starting at year 1. -/
def cycleYmd (r : Nat) : Date :=
  let n100 := r / 36524
  let r1 := r % 36524
  let n4 := r1 / 1461
  let r2 := r1 % 1461
  let n1 := r2 / 365
  let n := r2 % 365
  let year := n100 * 100 + n4 * 4 + n1 + 1
  if n1 == 4 || n100 == 4 then ⟨year - 1, 12, 31⟩
  else ⟨year, (monthDayOf year n).1, (monthDayOf year n).2⟩

/-- CPython `_ord2ymd`: date of a proleptic-Gregorian ordinal. -/
def ord2ymd (n : Nat) : Date :=
  let n0 := n - 1
  let d := cycleYmd (n0 % 146097)
  ⟨d.year + 400 * (n0 / 146097), d.month, d.day⟩

/-- Validity of a calendar date. -/
def Date.validB (d : Date) : Bool :=
  1 ≤ d.year && 1 ≤ d.month && d.month ≤ 12 && 1 ≤ d.day &&
    d.day ≤ daysInMonth d.year d.month

/-- Modelled from the spec: the date exactly one calendar day earlier
("yesterday and two days ago must equal today minus 1 and minus 2 calendar
days respectively").  Used as the specification side when checking the
script's `timedelta` subtraction. -/
def calPredD (d : Date) : Date :=
  if 1 < d.day then ⟨d.year, d.month, d.day - 1⟩
  else if 1 < d.month then ⟨d.year, d.month - 1, daysInMonth d.year (d.month - 1)⟩
  else ⟨d.year - 1, 12, 31⟩

/-- strftime `"%Y-%m-%d"` (as produced for years 1000..9999). -/
def fmtDate (d : Date) : String :=
  pad4 d.year ++ "-" ++ pad2 d.month ++ "-" ++ pad2 d.day

/-- The script's `today` string: `datetime.now().strftime("%Y-%m-%d")`,
with the current date as parameter. -/
def todayStr (d : Date) : String := fmtDate d

/-- The script's `yesterday` string:
`(datetime.now() - timedelta(days=1)).strftime("%Y-%m-%d")`; the
subtraction goes through the ordinal, as in CPython. -/
def yesterdayStr (d : Date) : String := fmtDate (ord2ymd (ymd2ord d - 1))

/-- The script's `two_days_ago` string. -/
def twoDaysAgoStr (d : Date) : String := fmtDate (ord2ymd (ymd2ord d - 2))

/-- `datetime.isoformat()` of a whole-second timestamp, given as seconds
since the start of ordinal day 1. -/
def isoOf (t : Nat) : String :=
  fmtDate (ord2ymd (t / 86400 + 1)) ++ "T" ++ pad2 (t % 86400 / 3600) ++ ":" ++
    pad2 (t % 3600 / 60) ++ ":" ++ pad2 (t % 60)

/-! ## JSON values (parsed `json.loads` output) -/

inductive J where
  | null
  | jbool (b : Bool)
  | jnum (n : Int)
  | jstr (s : String)
  | jarr (elems : List J)
  | jobj (fields : List (String × J))

/-- Python truthiness of a JSON value. -/
def J.truthy : J → Bool
  | .null => false
  | .jbool b => b
  | .jnum n => n != 0
  | .jstr s => s != ""
  | .jarr xs => !xs.isEmpty
  | .jobj fs => !fs.isEmpty

mutual

/-- Python `repr` of a JSON value (as used by `str` on containers);
string escaping inside reprs is not modelled. -/
def jRepr : J → String
  | .null => "None"
  | .jbool true => "True"
  | .jbool false => "False"
  | .jnum n => toString n
  | .jstr s => "\x27" ++ s ++ "\x27"
  | .jarr xs => "[" ++ jReprList xs ++ "]"
  | .jobj fs => "\x7b" ++ jReprFields fs ++ "\x7d"

def jReprList : List J → String
  | [] => ""
  | [x] => jRepr x
  | x :: y :: xs => jRepr x ++ ", " ++ jReprList (y :: xs)

def jReprFields : List (String × J) → String
  | [] => ""
  | [(k, v)] => "\x27" ++ k ++ "\x27: " ++ jRepr v
  | (k, v) :: p :: ps => "\x27" ++ k ++ "\x27: " ++ jRepr v ++ ", " ++ jReprFields (p :: ps)

end

/-- Python `str` of a JSON value (used by f-string interpolation). -/
def jStr : J → String
  | .jstr s => s
  | v => jRepr v

/-- Python dict assignment `d[k] = v` on an association list with unique
keys (replaces an existing binding, else appends). -/
def dictInsert (fs : List (String × J)) (k : String) (v : J) : List (String × J) :=
  if (fs.find? (fun p => p.1 == k)).isSome then
    fs.map (fun p => if p.1 == k then (k, v) else p)
  else fs ++ [(k, v)]

/-- Python dict assignment for `Nat`-keyed dicts (`plan_ids`). -/
def dictInsertNat (fs : List (Nat × J)) (k : Nat) (v : J) : List (Nat × J) :=
  if (fs.find? (fun p => p.1 == k)).isSome then
    fs.map (fun p => if p.1 == k then (k, v) else p)
  else fs ++ [(k, v)]

/-! ## The run: exceptions, exit, requests, responses, console -/

/-- Termination other than falling off the end of the script:
`exited c` models `sys.exit(c)`, `crashed` an uncaught Python exception. -/
inductive Halt where
  | exited (code : Nat)
  | crashed
deriving DecidableEq

/-- A console line: `okL` = `ok()`, `failL` = `fail()`, `headerL` =
`header()`, `rawL` = plain `print`. -/
inductive OutLine where
  | okL (msg : String)
  | failL (msg : String)
  | headerL (msg : String)
  | rawL (msg : String)

/-- An HTTP request as issued by `api()`: method, path, optional JSON
body, optional bearer token. -/
structure Request where
  method : String
  path : String
  body : Option J
  auth : Option String

/-- The oracle's answer to one request: a parsed 2xx JSON body, an HTTP
error status with body text (raised as `urllib.error.HTTPError` and caught
inside `api`), a transport-level failure (`URLError` etc., not caught by
`api`), or a 2xx body that is not valid JSON (`json.loads` raises). -/
inductive Resp where
  | ok (j : J)
  | httpError (code : Nat) (body : String)
  | netError
  | badBody

/-- Run state: the response oracle, the index of the next request, the
requests issued so far, and the console lines printed so far. -/
structure RunSt where
  oracle : Nat → Resp
  reqIdx : Nat
  trace : List Request
  out : List OutLine

/-- The script monad: state plus `Halt` escape (the state, in particular
the trace and console output, survives a halt). -/
def M (α : Type) := RunSt → Except Halt α × RunSt

instance : Monad M where
  pure a := fun st => (Except.ok a, st)
  bind x f := fun st =>
    match x st with
    | (Except.ok a, st2) => f a st2
    | (Except.error h, st2) => (Except.error h, st2)

def mHalt {α : Type} (h : Halt) : M α := fun st => (Except.error h, st)

def liftE {α : Type} (e : Except Halt α) : M α := fun st => (e, st)

def emit (l : OutLine) : M Unit :=
  fun st => (Except.ok (), { st with out := st.out ++ [l] })

/-- Python `try: ... except Exception: handler` — catches crashes, not
`SystemExit`. -/
def tryCrash {α : Type} (x : M α) (handler : M α) : M α := fun st =>
  match x st with
  | (Except.error Halt.crashed, st2) => handler st2
  | r => r

/-- The dict returned by `api` when the server answers with an HTTP error
status. -/
def httpErrObj (code : Nat) (body : String) : J :=
  J.jobj [("success", J.jbool false),
          ("error", J.jstr ("HTTP " ++ toString code ++ ": " ++ strTake body 200))]

/-- The JSON value a call site sees for a response that does not raise. -/
def respJ : Resp → J
  | .ok j => j
  | .httpError c b => httpErrObj c b
  | _ => J.null

/-- The script's `api()` helper: records the request, consumes the next
oracle response; HTTP error statuses are converted to an error dict, while
transport errors and unparsable bodies raise. -/
def api (method path : String) (body : Option J) (auth : Option String) : M J :=
  fun st =>
    let st2 : RunSt :=
      ⟨st.oracle, st.reqIdx + 1, st.trace ++ [⟨method, path, body, auth⟩], st.out⟩
    match st.oracle st.reqIdx with
    | .ok j => (Except.ok j, st2)
    | .httpError c b => (Except.ok (httpErrObj c b), st2)
    | .netError => (Except.error Halt.crashed, st2)
    | .badBody => (Except.error Halt.crashed, st2)

/-- Python `resp.get(k, dflt)`: raises (`AttributeError`) unless the value
is a dict. -/
def pyGet (j : J) (k : String) (dflt : J) : Except Halt J :=
  match j with
  | .jobj fs => Except.ok ((List.lookup k fs).getD dflt)
  | _ => Except.error Halt.crashed

/-- Python `resp[k]`: raises unless a dict containing the key. -/
def pyIndex (j : J) (k : String) : Except Halt J :=
  match j with
  | .jobj fs =>
      match List.lookup k fs with
      | some v => Except.ok v
      | none => Except.error Halt.crashed
  | _ => Except.error Halt.crashed

/-- Python `len`: defined on strings, lists and dicts. -/
def pyLen : J → Except Halt Nat
  | .jstr s => Except.ok s.length
  | .jarr xs => Except.ok xs.length
  | .jobj fs => Except.ok fs.length
  | _ => Except.error Halt.crashed

/-- Python `needle in v` where `v` must be a string. -/
def pyInStr (needle : String) (v : J) : Except Halt Bool :=
  match v with
  | .jstr s => Except.ok (strContainsSub needle s)
  | _ => Except.error Halt.crashed

/-! ## The seed data, as authored in the script -/

structure UserRec where
  username : String
  password : String
  fullName : String
  role : String

def userRecs : List UserRec :=
  [⟨"rajesh.kumar", "Pass@123", "Rajesh Kumar", "SUPERVISOR"⟩,
   ⟨"priya.sharma", "Pass@123", "Priya Sharma", "SUPERVISOR"⟩,
   ⟨"amit.patel", "Pass@123", "Amit Patel", "OPERATOR"⟩,
   ⟨"sunita.devi", "Pass@123", "Sunita Devi", "OPERATOR"⟩,
   ⟨"vikram.singh", "Pass@123", "Vikram Singh", "OPERATOR"⟩,
   ⟨"neha.gupta", "Pass@123", "Neha Gupta", "OPERATOR"⟩,
   ⟨"ravi.verma", "Pass@123", "Ravi Verma", "OPERATOR"⟩,
   ⟨"deepa.rani", "Pass@123", "Deepa Rani", "OPERATOR"⟩]

def userJ (u : UserRec) : J :=
  J.jobj [("username", J.jstr u.username), ("password", J.jstr u.password),
          ("full_name", J.jstr u.fullName), ("role", J.jstr u.role)]

structure MachineRec where
  code : String
  name : String
  dept : String
  mtype : String
  status : String

def machineRecs : List MachineRec :=
  [⟨"CNC-001", "CNC Lathe Alpha", "Machining", "CNC Lathe", "ACTIVE"⟩,
   ⟨"CNC-002", "CNC Mill Beta", "Machining", "CNC Mill", "ACTIVE"⟩,
   ⟨"INJ-001", "Injection Molder A", "Molding", "Injection Molder", "ACTIVE"⟩,
   ⟨"INJ-002", "Injection Molder B", "Molding", "Injection Molder", "ACTIVE"⟩,
   ⟨"PRESS-001", "Hydraulic Press 50T", "Pressing", "Hydraulic Press", "ACTIVE"⟩,
   ⟨"WELD-001", "Robotic Welder R1", "Welding", "Robotic Welder", "ACTIVE"⟩,
   ⟨"PACK-001", "Packaging Line 1", "Packaging", "Packaging", "ACTIVE"⟩,
   ⟨"GRIND-001", "Surface Grinder G1", "Machining", "Surface Grinder", "MAINTENANCE"⟩]

def machineJ (m : MachineRec) : J :=
  J.jobj [("machine_code", J.jstr m.code), ("machine_name", J.jstr m.name),
          ("department", J.jstr m.dept), ("machine_type", J.jstr m.mtype),
          ("status", J.jstr m.status)]

/-- One authored production plan: machine code, the static fallback
machine id used when resolution fails, shift id, product name/code,
target quantity, and which date string it uses (0 = today, 1 = yesterday,
2 = two days ago). -/
structure PlanRec where
  code : String
  fb : Nat
  shiftId : Nat
  productName : String
  productCode : String
  targetQty : Nat
  dateSel : Nat

def planRecs : List PlanRec :=
  [⟨"CNC-001", 1, 1, "Shaft Bearing Housing", "SBH-1001", 500, 0⟩,
   ⟨"CNC-002", 2, 1, "Gear Box Cover", "GBC-2002", 300, 0⟩,
   ⟨"INJ-001", 3, 1, "Plastic Housing Cap", "PHC-3001", 1000, 0⟩,
   ⟨"INJ-002", 4, 1, "Connector Shell", "CS-4001", 800, 0⟩,
   ⟨"PRESS-001", 5, 1, "Metal Bracket A", "MBA-5001", 600, 0⟩,
   ⟨"WELD-001", 6, 1, "Frame Assembly", "FA-6001", 200, 0⟩,
   ⟨"PACK-001", 7, 1, "Final Pack Unit", "FPU-7001", 400, 0⟩,
   ⟨"CNC-001", 1, 2, "Shaft Bearing Housing", "SBH-1001", 450, 0⟩,
   ⟨"INJ-001", 3, 2, "Valve Body", "VB-3002", 750, 0⟩,
   ⟨"CNC-001", 1, 1, "Shaft Bearing Housing", "SBH-1001", 500, 1⟩,
   ⟨"CNC-002", 2, 1, "Gear Box Cover", "GBC-2002", 300, 1⟩,
   ⟨"INJ-001", 3, 1, "Plastic Housing Cap", "PHC-3001", 1000, 1⟩,
   ⟨"CNC-001", 1, 1, "Shaft Bearing Housing", "SBH-1001", 500, 2⟩,
   ⟨"PRESS-001", 5, 1, "Metal Bracket A", "MBA-5001", 600, 2⟩]

/-- Select the plan-date string for a `dateSel` out of
(today, yesterday, two days ago). -/
def selDate (dates : String × String × String) : Nat → String
  | 0 => dates.1
  | 1 => dates.2.1
  | _ => dates.2.2

def mkPlanJ (mm : List (String × J)) (dates : String × String × String)
    (p : PlanRec) : J :=
  J.jobj [("machine_id", (List.lookup p.code mm).getD (J.jnum p.fb)),
          ("shift_id", J.jnum p.shiftId),
          ("product_name", J.jstr p.productName),
          ("product_code", J.jstr p.productCode),
          ("target_quantity", J.jnum p.targetQty),
          ("plan_date", J.jstr (selDate dates p.dateSel))]

/-- One authored production-log record: the plan index it was authored
against, machine code with static fallback id, quantities, hour slot
(`shift_id` is 1 throughout). -/
structure LogRec where
  planIdx : Nat
  code : String
  fb : Nat
  qtyProduced : Nat
  qtyOk : Nat
  qtyRejected : Nat
  slot : String

def logRecs : List LogRec :=
  [⟨0, "CNC-001", 1, 120, 118, 2, "06:00-07:00"⟩,
   ⟨0, "CNC-001", 1, 110, 107, 3, "07:00-08:00"⟩,
   ⟨0, "CNC-001", 1, 90, 88, 2, "08:00-09:00"⟩,
   ⟨1, "CNC-002", 2, 95, 92, 3, "06:00-07:00"⟩,
   ⟨1, "CNC-002", 2, 85, 82, 3, "07:00-08:00"⟩,
   ⟨2, "INJ-001", 3, 200, 195, 5, "06:00-07:00"⟩,
   ⟨2, "INJ-001", 3, 220, 215, 5, "07:00-08:00"⟩,
   ⟨2, "INJ-001", 3, 230, 225, 5, "08:00-09:00"⟩,
   ⟨3, "INJ-002", 4, 180, 176, 4, "06:00-07:00"⟩,
   ⟨3, "INJ-002", 4, 170, 166, 4, "07:00-08:00"⟩,
   ⟨3, "INJ-002", 4, 170, 166, 4, "08:00-09:00"⟩,
   ⟨4, "PRESS-001", 5, 150, 148, 2, "06:00-07:00"⟩,
   ⟨4, "PRESS-001", 5, 140, 137, 3, "07:00-08:00"⟩,
   ⟨4, "PRESS-001", 5, 110, 108, 2, "08:00-09:00"⟩,
   ⟨5, "WELD-001", 6, 60, 58, 2, "06:00-07:00"⟩,
   ⟨5, "WELD-001", 6, 60, 59, 1, "07:00-08:00"⟩,
   ⟨6, "PACK-001", 7, 100, 99, 1, "06:00-07:00"⟩,
   ⟨6, "PACK-001", 7, 95, 95, 0, "07:00-08:00"⟩,
   ⟨6, "PACK-001", 7, 85, 85, 0, "08:00-09:00"⟩,
   ⟨9, "CNC-001", 1, 250, 245, 5, "06:00-10:00"⟩,
   ⟨9, "CNC-001", 1, 240, 233, 7, "10:00-14:00"⟩,
   ⟨10, "CNC-002", 2, 295, 288, 7, "06:00-14:00"⟩,
   ⟨11, "INJ-001", 3, 500, 488, 12, "06:00-10:00"⟩,
   ⟨11, "INJ-001", 3, 480, 467, 13, "10:00-14:00"⟩,
   ⟨12, "CNC-001", 1, 260, 256, 4, "06:00-10:00"⟩,
   ⟨12, "CNC-001", 1, 250, 248, 2, "10:00-14:00"⟩,
   ⟨13, "PRESS-001", 5, 300, 295, 5, "06:00-10:00"⟩,
   ⟨13, "PRESS-001", 5, 280, 275, 5, "10:00-14:00"⟩]

def mkLogJ (pids : List (Nat × J)) (mm : List (String × J)) (lg : LogRec) : J :=
  J.jobj [("plan_id", (List.lookup lg.planIdx pids).getD J.null),
          ("machine_id", (List.lookup lg.code mm).getD (J.jnum lg.fb)),
          ("shift_id", J.jnum 1),
          ("quantity_produced", J.jnum lg.qtyProduced),
          ("quantity_ok", J.jnum lg.qtyOk),
          ("quantity_rejected", J.jnum lg.qtyRejected),
          ("hour_slot", J.jstr lg.slot)]

/-- One authored downtime event: machine code with fallback id, reason,
category, and how many seconds before `now` it started / ended (`none` =
still ongoing, the `ended_at` key is omitted). -/
structure DownRec where
  code : String
  fb : Nat
  reason : String
  category : String
  startBack : Nat
  endBack : Option Nat

def downRecs : List DownRec :=
  [⟨"GRIND-001", 8, "Scheduled preventive maintenance - bearing replacement",
    "MAINTENANCE", 28800, none⟩,
   ⟨"CNC-002", 2, "Tool breakage - carbide insert shattered",
    "BREAKDOWN", 14400, some 7200⟩,
   ⟨"INJ-002", 4, "Material feed jam - hopper blockage",
    "MATERIAL", 21600, some 18000⟩,
   ⟨"WELD-001", 6, "Calibration drift detected - recalibration performed",
    "QUALITY", 10800, some 9000⟩]

def mkDownJ (mm : List (String × J)) (nowTot : Nat) (r : DownRec) : J :=
  J.jobj ([("machine_id", (List.lookup r.code mm).getD (J.jnum r.fb)),
           ("reason", J.jstr r.reason),
           ("category", J.jstr r.category),
           ("started_at", J.jstr (isoOf (nowTot - r.startBack)))] ++
    (match r.endBack with
     | some e => [("ended_at", J.jstr (isoOf (nowTot - e)))]
     | none => []))

/-! ## Per-item conditions and loops -/

/-- The user-creation success test:
`resp.get("success") or "already exists" in resp.get("error", "")`
(short-circuit, so the substring test only runs on a falsy success). -/
def userOkCond (resp : J) : Except Halt Bool := do
  let s ← pyGet resp "success" J.null
  if s.truthy then pure true
  else do
    let e ← pyGet resp "error" (J.jstr "")
    pyInStr "already exists" e

/-- The machine-creation success test:
`resp.get("success") or "already exists" in resp.get("error", "").lower()
or "duplicate" in resp.get("error", "").lower()`. -/
def machineOkCond (resp : J) : Except Halt Bool := do
  let s ← pyGet resp "success" J.null
  if s.truthy then pure true
  else do
    let e ← pyGet resp "error" (J.jstr "")
    match e with
    | J.jstr t =>
        Except.ok (strContainsSub "already exists" (strLower t) ||
          strContainsSub "duplicate" (strLower t))
    | _ => Except.error Halt.crashed

def usersLoop (tok : String) : List UserRec → M Unit
  | [] => pure ()
  | u :: rest => do
      let resp ← api "POST" "/api/v1/auth/register" (some (userJ u)) (some tok)
      let c ← liftE (userOkCond resp)
      if c then
        emit (OutLine.okL ("Created " ++ strLower u.role ++ ": " ++ u.fullName))
      else do
        let e ← liftE (pyGet resp "error" (J.jstr "unknown"))
        emit (OutLine.failL (u.fullName ++ ": " ++ jStr e))
      usersLoop tok rest

def machinesLoop (tok : String) : List MachineRec → M Unit
  | [] => pure ()
  | m :: rest => do
      let resp ← api "POST" "/api/v1/machines" (some (machineJ m)) (some tok)
      let c ← liftE (machineOkCond resp)
      if c then
        emit (OutLine.okL ("Created: " ++ m.code ++ " (" ++ m.name ++ ")"))
      else do
        let e ← liftE (pyGet resp "error" resp)
        emit (OutLine.failL (m.code ++ ": " ++ jStr e))
      machinesLoop tok rest

/-- Extract the shift names for the join in step 4
(`", ".join(s["shift_name"] for s in shifts)`). -/
def shiftNamesGo : List J → Except Halt (List String)
  | [] => Except.ok []
  | x :: rest => do
      let n ← pyIndex x "shift_name"
      match n with
      | J.jstr s => do
          let others ← shiftNamesGo rest
          Except.ok (s :: others)
      | _ => Except.error Halt.crashed

def shiftNames : J → Except Halt (List String)
  | .jarr xs => shiftNamesGo xs
  | _ => Except.error Halt.crashed

/-- Build `machine_map` from the machine-listing response
(`machine_map[m["machine_code"]] = m["machine_id"]`). -/
def buildMapGo : List J → List (String × J) → Except Halt (List (String × J))
  | [], acc => Except.ok acc
  | x :: rest, acc => do
      let c ← pyIndex x "machine_code"
      match c with
      | J.jstr cs => do
          let i ← pyIndex x "machine_id"
          buildMapGo rest (dictInsert acc cs i)
      | _ => Except.error Halt.crashed

def buildMachineMap : J → Except Halt (List (String × J))
  | .jarr xs => buildMapGo xs []
  | _ => Except.error Halt.crashed

def plansLoop (tok : String) (mm : List (String × J))
    (dates : String × String × String) :
    Nat → List PlanRec → List (Nat × J) → M (List (Nat × J))
  | _, [], acc => pure acc
  | i, p :: rest, acc => do
      let resp ← api "POST" "/api/v1/plans" (some (mkPlanJ mm dates p)) (some tok)
      let s ← liftE (pyGet resp "success" J.null)
      if s.truthy then do
        let pobj ← liftE (pyGet resp "plan" (J.jobj []))
        let pid ← liftE (pyGet pobj "plan_id" (J.jnum (Int.ofNat (i + 1))))
        emit (OutLine.okL ("Plan " ++ jStr pid ++ ": " ++ p.productName ++ " (" ++
          toString p.targetQty ++ " pcs, " ++ selDate dates p.dateSel ++ ")"))
        plansLoop tok mm dates (i + 1) rest (dictInsertNat acc i pid)
      else do
        let e ← liftE (pyGet resp "error" resp)
        emit (OutLine.failL ("Plan " ++ toString i ++ ": " ++ jStr e))
        plansLoop tok mm dates (i + 1) rest acc

/-- The PATCH loops of step 6: `pid = plan_ids.get(i); if pid: api(...)`.
The response is ignored. -/
def patchLoop (tok : String) (pids : List (Nat × J)) (status : String) :
    List Nat → M Unit
  | [] => pure ()
  | i :: rest =>
      match List.lookup i pids with
      | some pid =>
          if pid.truthy then do
            let _ ← api "PATCH" ("/api/v1/plans/" ++ jStr pid)
              (some (J.jobj [("status", J.jstr status)])) (some tok)
            patchLoop tok pids status rest
          else patchLoop tok pids status rest
      | none => patchLoop tok pids status rest

def logsLoop (tok : String) (pids : List (Nat × J)) (mm : List (String × J)) :
    List LogRec → Nat → Nat → M (Nat × Nat)
  | [], sc, fc => pure (sc, fc)
  | lg :: rest, sc, fc => do
      let resp ← api "POST" "/api/v1/production-logs" (some (mkLogJ pids mm lg)) (some tok)
      let s ← liftE (pyGet resp "success" J.null)
      if s.truthy then logsLoop tok pids mm rest (sc + 1) fc
      else logsLoop tok pids mm rest sc (fc + 1)

def downLoop (tok : String) (mm : List (String × J)) (nowTot : Nat) :
    List DownRec → M Unit
  | [] => pure ()
  | r :: rest => do
      let dj := mkDownJ mm nowTot r
      let resp ← api "POST" "/api/v1/downtime" (some dj) (some tok)
      let s ← liftE (pyGet resp "success" J.null)
      if s.truthy then do
        let e ← liftE (pyGet dj "ended_at" J.null)
        emit (OutLine.okL ("Downtime: " ++ strTake r.reason 40 ++ "... (" ++
          (if e.truthy then "resolved" else "ongoing") ++ ")"))
      else do
        let e ← liftE (pyGet resp "error" resp)
        emit (OutLine.failL ("Downtime: " ++ jStr e))
      downLoop tok mm nowTot rest

/-- One `print(f"  {label}{d.get(key, 'N/A')}{suffix}")` dashboard line. -/
def dashLine (d : J) (label key suffix : String) : M Unit := do
  let v ← liftE (pyGet d key (J.jstr "N/A"))
  emit (OutLine.rawL (label ++ jStr v ++ suffix))

/-- The feature-flag print loop of step 11 (the dead local `status`
assignment in the source has no observable effect and is not modelled). -/
def featsLoopList : List J → M Unit
  | [] => pure ()
  | f :: rest => do
      let fid ← liftE (pyIndex f "id")
      match fid with
      | J.jstr ids => do
          let ap ← liftE (pyGet f "api" J.null)
          match ap with
          | J.jstr aps => do
              let ui ← liftE (pyGet f "ui" J.null)
              match ui with
              | J.jstr uis => do
                  let lb ← liftE (pyGet f "label" (J.jstr ""))
                  emit (OutLine.rawL (padRight ids 12 ++ "  api=" ++ padRight aps 8 ++
                    "  ui=" ++ padRight uis 8 ++ "  " ++ jStr lb))
                  featsLoopList rest
              | _ => mHalt Halt.crashed
          | _ => mHalt Halt.crashed
      | _ => mHalt Halt.crashed

def featsLoop : J → M Unit
  | J.jarr xs => featsLoopList xs
  | _ => mHalt Halt.crashed

/-! ## The whole script -/

/-- The seed script, parameterised by the current date and the current
second within that day (`datetime.now()`). -/
def theScript (nowD : Date) (nowSec : Nat) : M Unit := do
  emit (OutLine.headerL "0. HEALTH CHECK")
  tryCrash
    (do
      let health ← api "GET" "/api/health" none none
      let s ← liftE (pyGet health "success" J.null)
      if s.truthy then do
        let sv ← liftE (pyGet health "service" (J.jstr "unknown"))
        emit (OutLine.okL ("API is healthy – " ++ jStr sv))
      else do
        emit (OutLine.failL "API health check failed")
        mHalt (Halt.exited 1))
    (do
      emit (OutLine.failL "Cannot reach API on http://localhost:4000")
      mHalt (Halt.exited 1))
  emit (OutLine.headerL "1. LOGIN AS ADMIN")
  let lr ← api "POST" "/api/v1/auth/login"
    (some (J.jobj [("username", J.jstr "admin"), ("password", J.jstr "admin123")]))
    none
  let t ← liftE (pyGet lr "token" J.null)
  if t.truthy then pure ()
  else do
    emit (OutLine.failL ("Login failed: " ++ jStr lr))
    mHalt (Halt.exited 1)
  let tokv ← liftE (pyIndex lr "token")
  let tlen ← liftE (pyLen tokv)
  let tok := jStr tokv
  emit (OutLine.okL ("Logged in as admin (token: " ++ toString tlen ++ " chars)"))
  emit (OutLine.headerL "2. CREATE USERS")
  usersLoop tok userRecs
  emit (OutLine.headerL "3. CREATE MACHINES")
  machinesLoop tok machineRecs
  emit (OutLine.headerL "4. VERIFY SHIFTS")
  let sr ← api "GET" "/api/v1/shifts" none (some tok)
  let shifts ← liftE (pyGet sr "shifts" (J.jarr []))
  let names ← liftE (shiftNames shifts)
  let cnt ← liftE (pyLen shifts)
  emit (OutLine.okL ("Shifts available: " ++ toString cnt ++ " (" ++
    String.intercalate ", " names ++ ")"))
  emit (OutLine.headerL "5. CREATE PRODUCTION PLANS")
  let mr ← api "GET" "/api/v1/machines" none (some tok)
  let marr ← liftE (pyGet mr "machines" (J.jarr []))
  let mm ← liftE (buildMachineMap marr)
  let dates := (todayStr nowD, yesterdayStr nowD, twoDaysAgoStr nowD)
  let pids ← plansLoop tok mm dates 0 planRecs []
  emit (OutLine.headerL "6. SET PLAN STATUSES")
  patchLoop tok pids "IN_PROGRESS" [0, 1, 2, 3, 4, 5, 6]
  emit (OutLine.okL "Plans 1-7 (today morning) → IN_PROGRESS")
  patchLoop tok pids "COMPLETED" [9, 10, 11, 12, 13]
  emit (OutLine.okL "Plans 10-14 (yesterday + 2 days ago) → COMPLETED")
  emit (OutLine.headerL "7. LOG PRODUCTION DATA")
  let counts ← logsLoop tok pids mm logRecs 0 0
  emit (OutLine.okL ("Production logs: " ++ toString counts.1 ++ " created, " ++
    toString counts.2 ++ " failed"))
  emit (OutLine.headerL "8. LOG DOWNTIME EVENTS")
  let nowTot := (ymd2ord nowD - 1) * 86400 + nowSec
  downLoop tok mm nowTot downRecs
  emit (OutLine.headerL "9. DASHBOARD VERIFICATION")
  let dash ← api "GET" "/api/v1/dashboard" none (some tok)
  let d ← liftE (pyGet dash "dashboard" (J.jobj []))
  dashLine d "Total Machines:    " "totalMachines" ""
  dashLine d "Active Machines:   " "activeMachines" ""
  dashLine d "Today Plans:       " "todayPlans" ""
  dashLine d "Today Produced:    " "todayProduced" ""
  dashLine d "Today Target:      " "todayTarget" ""
  dashLine d "Today OK:          " "todayOk" ""
  dashLine d "Today Rejected:    " "todayRejected" ""
  dashLine d "Rejection Rate:    " "rejectionRate" "%"
  dashLine d "Efficiency:        " "efficiency" "%"
  dashLine d "Downtime (min):    " "todayDowntimeMin" ""
  emit (OutLine.headerL "10. REPORTS VERIFICATION")
  let rd ← api "GET" "/api/v1/reports/daily" none (some tok)
  let s1 ← liftE (pyGet rd "success" J.null)
  let cond ←
    if s1.truthy then pure true
    else do
      let r ← liftE (pyGet rd "report" J.null)
      pure r.truthy
  if cond then do
    let rep ← liftE (pyGet rd "report" (J.jarr []))
    let n ← liftE (pyLen rep)
    emit (OutLine.okL ("Daily report: " ++ toString n ++ " entries"))
  else do
    let e ← liftE (pyGet rd "error" (J.jstr "N/A"))
    emit (OutLine.failL ("Daily report: " ++ jStr e))
  let dtr ← api "GET" "/api/v1/downtime" none (some tok)
  let lgs ← liftE (pyGet dtr "logs" (J.jarr []))
  let n2 ← liftE (pyLen lgs)
  emit (OutLine.okL ("Downtime logs: " ++ toString n2 ++ " entries"))
  let ur ← api "GET" "/api/v1/auth/users" none (some tok)
  let us ← liftE (pyGet ur "users" (J.jarr []))
  let n3 ← liftE (pyLen us)
  emit (OutLine.okL ("Users: " ++ toString n3 ++ " total"))
  emit (OutLine.headerL "11. FEATURE FLAGS")
  let fr ← api "GET" "/api/v1/admin/features" none (some tok)
  let feats ← liftE (pyGet fr "features" (J.jarr []))
  featsLoop feats
  emit (OutLine.rawL "SEED DATA COMPLETE – FactoryOS is ready!")
  emit (OutLine.rawL "Login: http://localhost:8081")
  emit (OutLine.rawL "Credentials: admin / admin123")
  emit (OutLine.rawL "API: http://localhost:4000/api/v1/...")

/-- How the process ended. -/
inductive ExitKind where
  | completed
  | exited (code : Nat)
  | crashed
deriving DecidableEq

structure RunResult where
  trace : List Request
  out : List OutLine
  exit : ExitKind

/-- Run the whole script against a response oracle. -/
def runScript (o : Nat → Resp) (nowD : Date) (nowSec : Nat) : RunResult :=
  match theScript nowD nowSec { oracle := o, reqIdx := 0, trace := [], out := [] } with
  | (Except.ok _, st) => ⟨st.trace, st.out, ExitKind.completed⟩
  | (Except.error (Halt.exited c), st) => ⟨st.trace, st.out, ExitKind.exited c⟩
  | (Except.error Halt.crashed, st) => ⟨st.trace, st.out, ExitKind.crashed⟩

/-! ## Well-typedness of responses and specification-side projections

`WTJ` collects the shape constraints under which the dynamic field
accesses the script performs cannot raise: the response is a JSON object;
`error` and `token`, when present, are strings; `plan` and `dashboard`,
when present, are objects; `report`, `logs` and `users`, when present, are
arrays; `shifts` / `machines` / `features`, when present, are arrays of
objects carrying the accessed keys with string values where a string
operation is applied.  Every dict produced by `api` for an HTTP error
status satisfies these constraints. -/

/-- Total field projection (`dict.get`) for spec-side functions. -/
def jGetD (j : J) (k : String) (dflt : J) : J :=
  match j with
  | .jobj fs => (List.lookup k fs).getD dflt
  | _ => dflt

/-- The string content of a JSON string, else `""`. -/
def strOfJ : J → String
  | .jstr s => s
  | _ => ""

/-- The `error` field of a response as a string (spec side). -/
def errStrOf (j : J) : String := strOfJ (jGetD j "error" (J.jstr ""))

def wtStrField (fs : List (String × J)) (k : String) : Bool :=
  match List.lookup k fs with
  | none => true
  | some (J.jstr _) => true
  | some _ => false

def wtObjField (fs : List (String × J)) (k : String) : Bool :=
  match List.lookup k fs with
  | none => true
  | some (J.jobj _) => true
  | some _ => false

def wtArrField (fs : List (String × J)) (k : String) : Bool :=
  match List.lookup k fs with
  | none => true
  | some (J.jarr _) => true
  | some _ => false

def wtShiftElem : J → Bool
  | J.jobj g =>
      match List.lookup "shift_name" g with
      | some (J.jstr _) => true
      | _ => false
  | _ => false

def wtMachineElem : J → Bool
  | J.jobj g =>
      match List.lookup "machine_code" g with
      | some (J.jstr _) => (List.lookup "machine_id" g).isSome
      | _ => false
  | _ => false

def wtFeatElem : J → Bool
  | J.jobj g =>
      (match List.lookup "id" g with
       | some (J.jstr _) => true
       | _ => false) &&
      (match List.lookup "api" g with
       | some (J.jstr _) => true
       | _ => false) &&
      (match List.lookup "ui" g with
       | some (J.jstr _) => true
       | _ => false)
  | _ => false

def wtListField (fs : List (String × J)) (k : String) (elemOk : J → Bool) : Bool :=
  match List.lookup k fs with
  | none => true
  | some (J.jarr xs) => xs.all elemOk
  | some _ => false

/-- Well-typed response body: the script cannot raise on any field access
it performs against such a value. -/
def WTJ : J → Bool
  | J.jobj fs =>
      wtStrField fs "error" && wtStrField fs "token" &&
      wtObjField fs "plan" && wtObjField fs "dashboard" &&
      wtArrField fs "report" && wtArrField fs "logs" && wtArrField fs "users" &&
      wtListField fs "shifts" wtShiftElem &&
      wtListField fs "machines" wtMachineElem &&
      wtListField fs "features" wtFeatElem
  | _ => false

/-- Well-typed oracle response: a well-typed JSON body or an HTTP error
status (no transport failure, no unparsable body). -/
def WTResp : Resp → Bool
  | Resp.ok j => WTJ j
  | Resp.httpError _ _ => true
  | _ => false

/-- The JSON body of the k-th response as the call sites see it. -/
def respOf (o : Nat → Resp) (k : Nat) : J := respJ (o k)

/-- The health check passes: a parsed body whose `success` is truthy. -/
def healthOkB : Resp → Bool
  | Resp.ok j => (jGetD j "success" J.null).truthy
  | _ => false

/-- The login succeeds: a parsed body whose `token` is a nonempty string. -/
def loginOkB : Resp → Bool
  | Resp.ok j =>
      match jGetD j "token" J.null with
      | J.jstr s => s != ""
      | _ => false
  | _ => false

/-- The login response carries no (truthy) token, so the script exits:
covers parsed bodies with a missing/falsy `token` and HTTP error statuses. -/
def loginNoTokenB : Resp → Bool
  | Resp.ok j => !(jGetD j "token" J.null).truthy
  | Resp.httpError _ _ => true
  | _ => false

/-- The bearer token string the run uses after a successful login. -/
def tokStrSpec (o : Nat → Resp) : String :=
  jStr (jGetD (respOf o 1) "token" J.null)

/-- Spec side of `userOkCond` (total, for well-typed responses). -/
def userCondB (j : J) : Bool :=
  (jGetD j "success" J.null).truthy ||
    strContainsSub "already exists" (errStrOf j)

/-- Spec side of `machineOkCond` (total, for well-typed responses). -/
def machineCondB (j : J) : Bool :=
  (jGetD j "success" J.null).truthy ||
    strContainsSub "already exists" (strLower (errStrOf j)) ||
    strContainsSub "duplicate" (strLower (errStrOf j))

/-- The console line printed for one user-creation response. -/
def userLineSpec (u : UserRec) (resp : J) : OutLine :=
  if userCondB resp then
    OutLine.okL ("Created " ++ strLower u.role ++ ": " ++ u.fullName)
  else
    OutLine.failL (u.fullName ++ ": " ++ jStr (jGetD resp "error" (J.jstr "unknown")))

/-- The console line printed for one machine-creation response. -/
def machineLineSpec (m : MachineRec) (resp : J) : OutLine :=
  if machineCondB resp then
    OutLine.okL ("Created: " ++ m.code ++ " (" ++ m.name ++ ")")
  else
    OutLine.failL (m.code ++ ": " ++ jStr (jGetD resp "error" resp))

def usersOutSpec (o : Nat → Resp) : Nat → List UserRec → List OutLine
  | _, [] => []
  | k, u :: rest => userLineSpec u (respOf o k) :: usersOutSpec o (k + 1) rest

def machinesOutSpec (o : Nat → Resp) : Nat → List MachineRec → List OutLine
  | _, [] => []
  | k, m :: rest => machineLineSpec m (respOf o k) :: machinesOutSpec o (k + 1) rest

def usersTraceSpec (tok : String) (us : List UserRec) : List Request :=
  us.map (fun u => ⟨"POST", "/api/v1/auth/register", some (userJ u), some tok⟩)

def machinesTraceSpec (tok : String) (ms : List MachineRec) : List Request :=
  ms.map (fun m => ⟨"POST", "/api/v1/machines", some (machineJ m), some tok⟩)

/-- Spec side of `buildMachineMap` (total, for well-typed listings):
the `machine_map` built from a machine-listing response body. -/
def machineMapSpecGo : List J → List (String × J) → List (String × J)
  | [], acc => acc
  | x :: rest, acc =>
      machineMapSpecGo rest
        (dictInsert acc (strOfJ (jGetD x "machine_code" (J.jstr "")))
          (jGetD x "machine_id" J.null))

def machineMapSpec (j : J) : List (String × J) :=
  match j with
  | J.jarr xs => machineMapSpecGo xs []
  | _ => []

/-- The plan id collected for a successful plan creation at index `i`:
`resp.get("plan", {}).get("plan_id", i + 1)`. -/
def planPidSpec (resp : J) (i : Nat) : J :=
  jGetD (jGetD resp "plan" (J.jobj [])) "plan_id" (J.jnum (Int.ofNat (i + 1)))

/-- Whether a (well-typed) response body reports success. -/
def succB (j : J) : Bool := (jGetD j "success" J.null).truthy

def planLineSpec (dates : String × String × String) (i : Nat) (p : PlanRec)
    (resp : J) : OutLine :=
  if succB resp then
    OutLine.okL ("Plan " ++ jStr (planPidSpec resp i) ++ ": " ++ p.productName ++
      " (" ++ toString p.targetQty ++ " pcs, " ++ selDate dates p.dateSel ++ ")")
  else
    OutLine.failL ("Plan " ++ toString i ++ ": " ++ jStr (jGetD resp "error" resp))

def plansOutSpec (o : Nat → Resp) (dates : String × String × String) :
    Nat → Nat → List PlanRec → List OutLine
  | _, _, [] => []
  | k, i, p :: rest =>
      planLineSpec dates i p (respOf o k) :: plansOutSpec o dates (k + 1) (i + 1) rest

/-- The `plan_ids` dict accumulated by the plan-creation loop. -/
def planIdsSpec (o : Nat → Resp) :
    Nat → Nat → List PlanRec → List (Nat × J) → List (Nat × J)
  | _, _, [], acc => acc
  | k, i, _ :: rest, acc =>
      if succB (respOf o k) then
        planIdsSpec o (k + 1) (i + 1) rest (dictInsertNat acc i (planPidSpec (respOf o k) i))
      else
        planIdsSpec o (k + 1) (i + 1) rest acc

def plansTraceSpec (tok : String) (mm : List (String × J))
    (dates : String × String × String) (ps : List PlanRec) : List Request :=
  ps.map (fun p => ⟨"POST", "/api/v1/plans", some (mkPlanJ mm dates p), some tok⟩)

/-- The PATCH requests issued for a status over a list of plan indices:
one request per index whose collected plan id exists and is truthy, in
order; indices without a collected id are skipped. -/
def patchTraceSpec (tok : String) (pids : List (Nat × J)) (status : String) :
    List Nat → List Request
  | [] => []
  | i :: rest =>
      match List.lookup i pids with
      | some pid =>
          if pid.truthy then
            ⟨"PATCH", "/api/v1/plans/" ++ jStr pid,
              some (J.jobj [("status", J.jstr status)]), some tok⟩ ::
              patchTraceSpec tok pids status rest
          else patchTraceSpec tok pids status rest
      | none => patchTraceSpec tok pids status rest

/-- Success/failure tally of the production-log loop over a record list,
starting from the k-th response and given counters. -/
def logsCountsSpec (o : Nat → Resp) : Nat → List LogRec → Nat × Nat → Nat × Nat
  | _, [], c => c
  | k, _ :: rest, (sc, fc) =>
      if succB (respOf o k) then logsCountsSpec o (k + 1) rest (sc + 1, fc)
      else logsCountsSpec o (k + 1) rest (sc, fc + 1)

def logsTraceSpec (tok : String) (pids : List (Nat × J)) (mm : List (String × J))
    (lgs : List LogRec) : List Request :=
  lgs.map (fun lg => ⟨"POST", "/api/v1/production-logs", some (mkLogJ pids mm lg), some tok⟩)

/-- Whether a console line is a success (`ok()`) line. -/
def isOkL : OutLine → Bool
  | OutLine.okL _ => true
  | _ => false

/-- Whether a console line is a failure (`fail()`) line. -/
def isFailL : OutLine → Bool
  | OutLine.failL _ => true
  | _ => false

/-- Whether a console line mentions a given phrase. -/
def lineMentions (phrase : String) : OutLine → Bool
  | OutLine.okL s => strContainsSub phrase s
  | OutLine.failL s => strContainsSub phrase s
  | OutLine.headerL s => strContainsSub phrase s
  | OutLine.rawL s => strContainsSub phrase s

/-- Count the requests in a trace with a given method and path. -/
def countReq (tr : List Request) (method path : String) : Nat :=
  (tr.filter (fun r => r.method == method && r.path == path)).length

/-! ## Concrete oracles used in witnesses and counterexamples -/

/-- A fully successful, well-typed response usable for every request: all
creations succeed (with no `plan` payload, so plan ids default to
`i + 1`), the machine listing resolves all eight codes, login returns a
token. -/
def richResp : Resp :=
  Resp.ok (J.jobj
    [("success", J.jbool true), ("token", J.jstr "tok123"),
     ("service", J.jstr "api-gateway"),
     ("shifts", J.jarr [J.jobj [("shift_name", J.jstr "Morning")],
                        J.jobj [("shift_name", J.jstr "Afternoon")]]),
     ("machines", J.jarr
       [J.jobj [("machine_code", J.jstr "CNC-001"), ("machine_id", J.jnum 11)],
        J.jobj [("machine_code", J.jstr "CNC-002"), ("machine_id", J.jnum 12)],
        J.jobj [("machine_code", J.jstr "INJ-001"), ("machine_id", J.jnum 13)],
        J.jobj [("machine_code", J.jstr "INJ-002"), ("machine_id", J.jnum 14)],
        J.jobj [("machine_code", J.jstr "PRESS-001"), ("machine_id", J.jnum 15)],
        J.jobj [("machine_code", J.jstr "WELD-001"), ("machine_id", J.jnum 16)],
        J.jobj [("machine_code", J.jstr "PACK-001"), ("machine_id", J.jnum 17)],
        J.jobj [("machine_code", J.jstr "GRIND-001"), ("machine_id", J.jnum 18)]]),
     ("dashboard", J.jobj [("totalMachines", J.jnum 8)]),
     ("report", J.jarr [J.jnum 1]),
     ("logs", J.jarr []),
     ("users", J.jarr []),
     ("features", J.jarr [J.jobj [("id", J.jstr "oee"), ("api", J.jstr "ENABLED"),
       ("ui", J.jstr "ENABLED"), ("label", J.jstr "OEE Dashboard")]])])

/-- Every request succeeds. -/
def oracleAllOk : Nat → Resp := fun _ => richResp

/-- A duplicate-record rejection whose error text carries the
"already exists" phrasing. -/
def dupResp : Resp := Resp.httpError 409 "Machine already exists"

/-- Machines 3 and 4 (requests 12 and 13) answer "already exists";
everything else succeeds. -/
def oracleTwoDup : Nat → Resp :=
  fun k => if k == 12 || k == 13 then dupResp else richResp

/-- The first user-creation request (request 2) fails at transport level;
everything else succeeds. -/
def oracleNetUser : Nat → Resp :=
  fun k => if k == 2 then Resp.netError else richResp

/-- Login (request 1) returns a parsed body without a token. -/
def oracleLoginFail : Nat → Resp :=
  fun k => if k == 1 then Resp.ok (J.jobj [("success", J.jbool false)]) else richResp

/-- Plan creation at index 2 (request 22) is rejected; everything else
succeeds. -/
def oraclePlanFail : Nat → Resp :=
  fun k => if k == 22 then Resp.httpError 400 "target_quantity validation failed" else richResp

/-- The health check (request 0) is unreachable. -/
def oracleHealthDown : Nat → Resp :=
  fun k => if k == 0 then Resp.netError else richResp

/-- The machine-listing request (request 19) fails with an HTTP error, so
the machine map comes out empty; everything else succeeds. -/
def oracleListFail : Nat → Resp :=
  fun k => if k == 19 then Resp.httpError 500 "internal" else richResp

/-- A concrete current date used to instantiate witnesses. -/
def demoDate : Date := ⟨2026, 10, 12⟩

/-! ## Decidable range checking for the calendar blocks -/

/-- Check a predicate on `len` consecutive naturals from `a`, by binary
splitting so that reduction depth stays logarithmic. -/
def allRange (p : Nat → Bool) : Nat → Nat → Nat → Bool
  | 0, _, len => len == 0
  | _ + 1, _, 0 => true
  | _ + 1, a, 1 => p a
  | fuel + 1, a, len =>
      allRange p fuel a (len / 2) && allRange p fuel (a + len / 2) (len - len / 2)

/-- The per-residue check: `cycleYmd r` is a valid date whose ordinal is
`r + 1`, with its year in a given range. -/
def chkBounds (lo hi r : Nat) : Bool :=
  (cycleYmd r).validB && (ymd2ord (cycleYmd r) == r + 1) &&
  Nat.ble lo (cycleYmd r).year && Nat.ble (cycleYmd r).year hi

/-- Shift a date by `k` years. -/
def shiftY (k : Nat) (d : Date) : Date := ⟨d.year + k, d.month, d.day⟩


/-- The console line printed for one downtime event. -/
def downLineSpec (mm : List (String × J)) (nowTot : Nat) (r : DownRec)
    (resp : J) : OutLine :=
  if succB resp then
    OutLine.okL ("Downtime: " ++ strTake r.reason 40 ++ "... (" ++
      (if (jGetD (mkDownJ mm nowTot r) "ended_at" J.null).truthy
       then "resolved" else "ongoing") ++ ")")
  else
    OutLine.failL ("Downtime: " ++ jStr (jGetD resp "error" resp))

def downOutSpec (o : Nat → Resp) (mm : List (String × J)) (nowTot : Nat) :
    Nat → List DownRec → List OutLine
  | _, [] => []
  | k, r :: rest =>
      downLineSpec mm nowTot r (respOf o k) :: downOutSpec o mm nowTot (k + 1) rest

def downTraceSpec (tok : String) (mm : List (String × J)) (nowTot : Nat)
    (rs : List DownRec) : List Request :=
  rs.map (fun r => ⟨"POST", "/api/v1/downtime", some (mkDownJ mm nowTot r), some tok⟩)

/-- The console line printed for one feature flag. -/
def featLineSpec (f : J) : OutLine :=
  OutLine.rawL (padRight (strOfJ (jGetD f "id" J.null)) 12 ++ "  api=" ++
    padRight (strOfJ (jGetD f "api" J.null)) 8 ++ "  ui=" ++
    padRight (strOfJ (jGetD f "ui" J.null)) 8 ++ "  " ++
    jStr (jGetD f "label" (J.jstr "")))

def featsOutSpec (xs : List J) : List OutLine := xs.map featLineSpec

/-- The shift names joined in the step-4 summary line. -/
def shiftNamesSpec : J → List String
  | J.jarr xs => xs.map (fun x => strOfJ (jGetD x "shift_name" J.null))
  | _ => []


/-- Python `len` of the well-typed values the run measures. -/
def jLenSpec : J → Nat
  | J.jstr s => s.length
  | J.jarr xs => xs.length
  | J.jobj fs => fs.length
  | _ => 0

/-- The elements of a JSON array, else `[]`. -/
def arrOf : J → List J
  | J.jarr xs => xs
  | _ => []

/-- The dashboard print block of step 9. -/
def dashOutSpec (d : J) : List OutLine :=
  [OutLine.rawL ("Total Machines:    " ++ jStr (jGetD d "totalMachines" (J.jstr "N/A"))),
   OutLine.rawL ("Active Machines:   " ++ jStr (jGetD d "activeMachines" (J.jstr "N/A"))),
   OutLine.rawL ("Today Plans:       " ++ jStr (jGetD d "todayPlans" (J.jstr "N/A"))),
   OutLine.rawL ("Today Produced:    " ++ jStr (jGetD d "todayProduced" (J.jstr "N/A"))),
   OutLine.rawL ("Today Target:      " ++ jStr (jGetD d "todayTarget" (J.jstr "N/A"))),
   OutLine.rawL ("Today OK:          " ++ jStr (jGetD d "todayOk" (J.jstr "N/A"))),
   OutLine.rawL ("Today Rejected:    " ++ jStr (jGetD d "todayRejected" (J.jstr "N/A"))),
   OutLine.rawL ("Rejection Rate:    " ++ jStr (jGetD d "rejectionRate" (J.jstr "N/A")) ++ "%"),
   OutLine.rawL ("Efficiency:        " ++ jStr (jGetD d "efficiency" (J.jstr "N/A")) ++ "%"),
   OutLine.rawL ("Downtime (min):    " ++ jStr (jGetD d "todayDowntimeMin" (J.jstr "N/A")))]

/-- The step-10 daily-report line. -/
def reportLineSpec (rd : J) : OutLine :=
  if (jGetD rd "success" J.null).truthy || (jGetD rd "report" J.null).truthy then
    OutLine.okL ("Daily report: " ++
      toString (jLenSpec (jGetD rd "report" (J.jarr []))) ++ " entries")
  else
    OutLine.failL ("Daily report: " ++ jStr (jGetD rd "error" (J.jstr "N/A")))

/-- The full request trace of a run in which the health check and login
succeed and no response is ill-typed. -/
def fullTraceSpec (o : Nat → Resp) (nowD : Date) (nowSec : Nat) : List Request :=
  let tok := tokStrSpec o
  let dates := (todayStr nowD, yesterdayStr nowD, twoDaysAgoStr nowD)
  let mm := machineMapSpec (jGetD (respOf o 19) "machines" (J.jarr []))
  let pids := planIdsSpec o 20 0 planRecs []
  let nowTot := (ymd2ord nowD - 1) * 86400 + nowSec
  [⟨"GET", "/api/health", none, none⟩,
   ⟨"POST", "/api/v1/auth/login",
     some (J.jobj [("username", J.jstr "admin"), ("password", J.jstr "admin123")]),
     none⟩] ++
  usersTraceSpec tok userRecs ++ machinesTraceSpec tok machineRecs ++
  [⟨"GET", "/api/v1/shifts", none, some tok⟩,
   ⟨"GET", "/api/v1/machines", none, some tok⟩] ++
  plansTraceSpec tok mm dates planRecs ++
  patchTraceSpec tok pids "IN_PROGRESS" [0, 1, 2, 3, 4, 5, 6] ++
  patchTraceSpec tok pids "COMPLETED" [9, 10, 11, 12, 13] ++
  logsTraceSpec tok pids mm logRecs ++
  downTraceSpec tok mm nowTot downRecs ++
  [⟨"GET", "/api/v1/dashboard", none, some tok⟩,
   ⟨"GET", "/api/v1/reports/daily", none, some tok⟩,
   ⟨"GET", "/api/v1/downtime", none, some tok⟩,
   ⟨"GET", "/api/v1/auth/users", none, some tok⟩,
   ⟨"GET", "/api/v1/admin/features", none, some tok⟩]


/-- The number of PATCH requests a run issues (depends on which plan
creations succeeded). -/
def patchCountSpec (o : Nat → Resp) : Nat :=
  let tok := tokStrSpec o
  let pids := planIdsSpec o 20 0 planRecs []
  (patchTraceSpec tok pids "IN_PROGRESS" [0, 1, 2, 3, 4, 5, 6]).length +
    (patchTraceSpec tok pids "COMPLETED" [9, 10, 11, 12, 13]).length

/-- The full console output of a run in which the health check and login
succeed and no response is ill-typed.  (The horizontal-rule separator
prints of the dashboard block are not modelled.) -/
def fullOutSpec (o : Nat → Resp) (nowD : Date) (nowSec : Nat) : List OutLine :=
  let tok := tokStrSpec o
  let dates := (todayStr nowD, yesterdayStr nowD, twoDaysAgoStr nowD)
  let shifts := jGetD (respOf o 18) "shifts" (J.jarr [])
  let mm := machineMapSpec (jGetD (respOf o 19) "machines" (J.jarr []))
  let pids := planIdsSpec o 20 0 planRecs []
  let k1 := 34 + patchCountSpec o
  let counts := logsCountsSpec o k1 logRecs (0, 0)
  let nowTot := (ymd2ord nowD - 1) * 86400 + nowSec
  let k2 := k1 + 28
  let k3 := k2 + 4
  [OutLine.headerL "0. HEALTH CHECK",
   OutLine.okL ("API is healthy – " ++ jStr (jGetD (respOf o 0) "service" (J.jstr "unknown"))),
   OutLine.headerL "1. LOGIN AS ADMIN",
   OutLine.okL ("Logged in as admin (token: " ++
     toString (jLenSpec (jGetD (respOf o 1) "token" J.null)) ++ " chars)"),
   OutLine.headerL "2. CREATE USERS"] ++
  usersOutSpec o 2 userRecs ++
  [OutLine.headerL "3. CREATE MACHINES"] ++
  machinesOutSpec o 10 machineRecs ++
  [OutLine.headerL "4. VERIFY SHIFTS",
   OutLine.okL ("Shifts available: " ++ toString (jLenSpec shifts) ++ " (" ++
     String.intercalate ", " (shiftNamesSpec shifts) ++ ")"),
   OutLine.headerL "5. CREATE PRODUCTION PLANS"] ++
  plansOutSpec o dates 20 0 planRecs ++
  [OutLine.headerL "6. SET PLAN STATUSES",
   OutLine.okL "Plans 1-7 (today morning) → IN_PROGRESS",
   OutLine.okL "Plans 10-14 (yesterday + 2 days ago) → COMPLETED",
   OutLine.headerL "7. LOG PRODUCTION DATA",
   OutLine.okL ("Production logs: " ++ toString counts.1 ++ " created, " ++
     toString counts.2 ++ " failed"),
   OutLine.headerL "8. LOG DOWNTIME EVENTS"] ++
  downOutSpec o mm nowTot k2 downRecs ++
  [OutLine.headerL "9. DASHBOARD VERIFICATION"] ++
  dashOutSpec (jGetD (respOf o k3) "dashboard" (J.jobj [])) ++
  [OutLine.headerL "10. REPORTS VERIFICATION",
   reportLineSpec (respOf o (k3 + 1)),
   OutLine.okL ("Downtime logs: " ++
     toString (jLenSpec (jGetD (respOf o (k3 + 2)) "logs" (J.jarr []))) ++ " entries"),
   OutLine.okL ("Users: " ++
     toString (jLenSpec (jGetD (respOf o (k3 + 3)) "users" (J.jarr []))) ++ " total"),
   OutLine.headerL "11. FEATURE FLAGS"] ++
  featsOutSpec (arrOf (jGetD (respOf o (k3 + 4)) "features" (J.jarr []))) ++
  [OutLine.rawL "SEED DATA COMPLETE – FactoryOS is ready!",
   OutLine.rawL "Login: http://localhost:8081",
   OutLine.rawL "Credentials: admin / admin123",
   OutLine.rawL "API: http://localhost:4000/api/v1/..."]

/-! ## Calendar correctness: `timedelta` subtraction is the calendar
predecessor -/

theorem allRange_sound (p : Nat → Bool) :
    ∀ fuel a len, allRange p fuel a len = true → ∀ i, i < len → p (a + i) = true := by
  intro fuel
  induction fuel with
  | zero =>
      intro a len h i hi
      simp only [allRange, beq_iff_eq] at h
      omega
  | succ fn ih =>
      intro a len h i hi
      rcases len with _ | _ | m
      · omega
      · have hi0 : i = 0 := by omega
        subst hi0
        simpa [allRange] using h
      · simp only [allRange] at h
        rw [Bool.and_eq_true] at h
        obtain ⟨h1, h2⟩ := h
        by_cases hc : i < (m + 2) / 2
        · exact ih a _ h1 i hc
        · have e : a + (m + 2) / 2 + (i - (m + 2) / 2) = a + i := by omega
          have := ih (a + (m + 2) / 2) _ h2 (i - (m + 2) / 2) (by omega)
          rwa [e] at this

theorem chkBounds_spec (lo hi r : Nat) (h : chkBounds lo hi r = true) :
    (cycleYmd r).validB = true ∧ ymd2ord (cycleYmd r) = r + 1 ∧
      lo ≤ (cycleYmd r).year ∧ (cycleYmd r).year ≤ hi := by
  simp only [chkBounds, Bool.and_eq_true, beq_iff_eq, Nat.ble_eq] at h
  tauto

theorem blockA : allRange (chkBounds 1 4) 25 0 1461 = true := by decide

theorem blockB : allRange (chkBounds 97 100) 25 35064 1460 = true := by decide

theorem blockC : allRange (chkBounds 1 400) 25 144636 1461 = true := by decide

theorem isLeap_iff (y : Nat) :
    isLeap y = true ↔ (y % 4 = 0 ∧ (y % 100 ≠ 0 ∨ y % 400 = 0)) := by
  simp [isLeap]

theorem isLeap_false_iff (y : Nat) :
    isLeap y = false ↔ ¬(y % 4 = 0 ∧ (y % 100 ≠ 0 ∨ y % 400 = 0)) := by
  rw [← isLeap_iff]
  simp

theorem isLeap_shift_blk (y c b : Nat) (hy1 : 1 ≤ y) (hy4 : y ≤ 4)
    (hb : b ≤ 23) (hc : c ≤ 3) :
    isLeap (y + (100 * c + 4 * b)) = isLeap y := by
  rw [Bool.eq_iff_iff, isLeap_iff, isLeap_iff]
  omega

theorem isLeap_shift_cent (y c : Nat) (hy1 : 97 ≤ y) (hy4 : y ≤ 100)
    (hc : c ≤ 2) :
    isLeap (y + 100 * c) = isLeap y := by
  rw [Bool.eq_iff_iff, isLeap_iff, isLeap_iff]
  omega

theorem isLeap_shift400 (y q : Nat) : isLeap (y + 400 * q) = isLeap y := by
  rw [Bool.eq_iff_iff, isLeap_iff, isLeap_iff]
  omega

theorem dby_shift_blk (y c b : Nat) (hy1 : 1 ≤ y) (hy4 : y ≤ 4)
    (hb : b ≤ 23) (hc : c ≤ 3) :
    daysBeforeYear (y + (100 * c + 4 * b)) =
      daysBeforeYear y + (36524 * c + 1461 * b) := by
  unfold daysBeforeYear
  omega

theorem dby_shift_cent (y c : Nat) (hy1 : 97 ≤ y) (hy4 : y ≤ 100)
    (hc : c ≤ 2) :
    daysBeforeYear (y + 100 * c) = daysBeforeYear y + 36524 * c := by
  unfold daysBeforeYear
  omega

theorem dby_shift400 (y q : Nat) (h : 1 ≤ y) :
    daysBeforeYear (y + 400 * q) = daysBeforeYear y + 146097 * q := by
  unfold daysBeforeYear
  omega

theorem dby_succ_le (y : Nat) : daysBeforeYear y ≤ daysBeforeYear (y + 1) := by
  unfold daysBeforeYear
  omega

theorem dby_mono (a b : Nat) (h : a ≤ b) :
    daysBeforeYear a ≤ daysBeforeYear b := by
  induction b with
  | zero => simp_all
  | succ n ih =>
      rcases Nat.lt_or_ge a (n + 1) with h2 | h2
      · exact le_trans (ih (by omega)) (dby_succ_le n)
      · have ha : a = n + 1 := by omega
        subst ha
        rfl

set_option maxHeartbeats 1000000 in
theorem dby_succ_leap (y : Nat) (h : 1 ≤ y) (hL : isLeap y = true) :
    daysBeforeYear (y + 1) = daysBeforeYear y + 366 := by
  have h2 := (isLeap_iff y).mp hL
  unfold daysBeforeYear
  omega

set_option maxHeartbeats 2000000 in
theorem dby_succ_non (y : Nat) (h : 1 ≤ y) (hL : isLeap y = false) :
    daysBeforeYear (y + 1) = daysBeforeYear y + 365 := by
  have h2 := (isLeap_false_iff y).mp hL
  by_cases h4 : y % 4 = 0
  · have h100 : y % 100 = 0 := by tauto
    have h400 : y % 400 ≠ 0 := by tauto
    clear h2 hL
    unfold daysBeforeYear
    omega
  · clear h2 hL
    unfold daysBeforeYear
    omega

theorem dim_congr (y y' m : Nat) (h : isLeap y = isLeap y') :
    daysInMonth y m = daysInMonth y' m := by
  unfold daysInMonth
  rw [h]

theorem dbm_congr (y y' m : Nat) (h : isLeap y = isLeap y') :
    daysBeforeMonth y m = daysBeforeMonth y' m := by
  unfold daysBeforeMonth
  rw [h]

theorem validB_shiftY (k : Nat) (d : Date) (hv : d.validB = true)
    (hL : isLeap (d.year + k) = isLeap d.year) :
    (shiftY k d).validB = true := by
  simp only [Date.validB, shiftY, Bool.and_eq_true, decide_eq_true_eq] at hv ⊢
  rw [dim_congr _ _ _ hL]
  omega

theorem ymd2ord_shiftY (k off : Nat) (d : Date)
    (hL : isLeap (d.year + k) = isLeap d.year)
    (hdby : daysBeforeYear (d.year + k) = daysBeforeYear d.year + off) :
    ymd2ord (shiftY k d) = ymd2ord d + off := by
  unfold ymd2ord shiftY
  simp only
  rw [hdby, dbm_congr _ _ _ hL]
  ring

theorem monthDayOf_congr (y y2 n : Nat) (h : isLeap y = isLeap y2) :
    monthDayOf y n = monthDayOf y2 n := by
  unfold monthDayOf
  rw [h]

theorem cycleYmd_blk (c b s : Nat) (hc : c ≤ 3) (hb : b ≤ 23) (hs : s < 1461) :
    cycleYmd (36524 * c + 1461 * b + s) = shiftY (100 * c + 4 * b) (cycleYmd s) := by
  have e1 : (36524 * c + 1461 * b + s) / 36524 = c := by omega
  have e2 : (36524 * c + 1461 * b + s) % 36524 = 1461 * b + s := by omega
  have e3 : (1461 * b + s) / 1461 = b := by omega
  have e4 : (1461 * b + s) % 1461 = s := by omega
  have e5 : s / 36524 = 0 := by omega
  have e6 : s % 36524 = s := by omega
  have e7 : s / 1461 = 0 := by omega
  have e8 : s % 1461 = s := by omega
  have hc4 : (c == 4) = false := by simp; omega
  have h04 : ((0 : Nat) == 4) = false := rfl
  simp only [cycleYmd, e1, e2, e3, e4, e5, e6, e7, e8, hc4, h04, Nat.zero_mul,
    Nat.zero_add, Bool.or_false]
  rcases h365 : (s / 365 == 4) with _ | _
  · simp only [h365, Bool.false_eq_true, if_false]
    have hy1 : 1 ≤ s / 365 + 1 := by omega
    have hy4 : s / 365 + 1 ≤ 4 := by
      have : s / 365 ≠ 4 := by simpa using h365
      omega
    have eyr : c * 100 + b * 4 + s / 365 + 1 = s / 365 + 1 + (100 * c + 4 * b) := by
      ring
    have hLe : isLeap (c * 100 + b * 4 + s / 365 + 1) = isLeap (s / 365 + 1) := by
      rw [eyr]
      exact isLeap_shift_blk (s / 365 + 1) c b hy1 hy4 hb hc
    rw [monthDayOf_congr _ _ _ hLe]
    simp only [shiftY, Date.mk.injEq]
    refine ⟨by omega, trivial, trivial⟩
  · simp only [h365, if_true]
    simp only [shiftY, Date.mk.injEq]
    refine ⟨by omega, trivial, trivial⟩

theorem cycleYmd_cent (c s : Nat) (hc : c ≤ 2) (hs : s < 1460) :
    cycleYmd (36524 * c + (35064 + s)) = shiftY (100 * c) (cycleYmd (35064 + s)) := by
  have e1 : (36524 * c + (35064 + s)) / 36524 = c := by omega
  have e2 : (36524 * c + (35064 + s)) % 36524 = 35064 + s := by omega
  have e3 : (35064 + s) / 1461 = 24 := by omega
  have e4 : (35064 + s) % 1461 = s := by omega
  have e5 : (35064 + s) / 36524 = 0 := by omega
  have e6 : (35064 + s) % 36524 = 35064 + s := by omega
  have h365 : (s / 365 == 4) = false := by simp; omega
  have hc4 : (c == 4) = false := by simp; omega
  have h04 : ((0 : Nat) == 4) = false := rfl
  simp only [cycleYmd, e1, e2, e3, e4, e5, e6, h365, hc4, h04, Nat.zero_mul,
    Nat.zero_add, Bool.or_false, Bool.false_eq_true, if_false]
  have hy1 : 97 ≤ 24 * 4 + s / 365 + 1 := by omega
  have hy4 : 24 * 4 + s / 365 + 1 ≤ 100 := by omega
  have eyr : c * 100 + 24 * 4 + s / 365 + 1 = 24 * 4 + s / 365 + 1 + 100 * c := by
    ring
  have hLe : isLeap (c * 100 + 24 * 4 + s / 365 + 1) = isLeap (24 * 4 + s / 365 + 1) := by
    rw [eyr]
    exact isLeap_shift_cent (24 * 4 + s / 365 + 1) c hy1 hy4 hc
  rw [monthDayOf_congr _ _ _ hLe]
  simp only [shiftY, Date.mk.injEq]
  refine ⟨by omega, trivial, trivial⟩

theorem checkCycle (r : Nat) (hr : r < 146097) :
    (cycleYmd r).validB = true ∧ ymd2ord (cycleYmd r) = r + 1 := by
  by_cases hC : 144636 ≤ r
  · have h := allRange_sound _ _ _ _ blockC (r - 144636) (by omega)
    rw [show 144636 + (r - 144636) = r by omega] at h
    have := chkBounds_spec _ _ _ h
    exact ⟨this.1, this.2.1⟩
  · have hc : r / 36524 ≤ 3 := by omega
    by_cases hb : r % 36524 / 1461 ≤ 23
    · have hrep : 36524 * (r / 36524) + 1461 * (r % 36524 / 1461) +
          r % 36524 % 1461 = r := by omega
      have hs : r % 36524 % 1461 < 1461 := by omega
      have h := allRange_sound _ _ _ _ blockA (r % 36524 % 1461) (by omega)
      rw [Nat.zero_add] at h
      obtain ⟨hv, hord, hy1, hy4⟩ := chkBounds_spec _ _ _ h
      have hsh := cycleYmd_blk (r / 36524) (r % 36524 / 1461) (r % 36524 % 1461)
        hc hb hs
      rw [hrep] at hsh
      rw [hsh]
      constructor
      · exact validB_shiftY _ _ hv
          (isLeap_shift_blk _ _ _ hy1 hy4 hb hc)
      · rw [ymd2ord_shiftY _ (36524 * (r / 36524) + 1461 * (r % 36524 / 1461)) _
          (isLeap_shift_blk _ _ _ hy1 hy4 hb hc)
          (dby_shift_blk _ _ _ hy1 hy4 hb hc), hord]
        omega
    · have hb24 : r % 36524 / 1461 = 24 := by omega
      have hc2 : r / 36524 ≤ 2 := by omega
      have hs : r % 36524 - 35064 < 1460 := by omega
      have hrep : 36524 * (r / 36524) + (35064 + (r % 36524 - 35064)) = r := by
        omega
      have h := allRange_sound _ _ _ _ blockB (r % 36524 - 35064) (by omega)
      obtain ⟨hv, hord, hy1, hy4⟩ := chkBounds_spec _ _ _ h
      have hsh := cycleYmd_cent (r / 36524) (r % 36524 - 35064) hc2 hs
      rw [hrep] at hsh
      rw [hsh]
      constructor
      · exact validB_shiftY _ _ hv (isLeap_shift_cent _ _ hy1 hy4 hc2)
      · rw [ymd2ord_shiftY _ (36524 * (r / 36524)) _
          (isLeap_shift_cent _ _ hy1 hy4 hc2)
          (dby_shift_cent _ _ hy1 hy4 hc2), hord]
        omega

theorem cycleYmd_year_pos (r : Nat) (hr : r < 146097) :
    1 ≤ (cycleYmd r).year := by
  have h := (checkCycle r hr).1
  simp only [Date.validB, Bool.and_eq_true, decide_eq_true_eq] at h
  exact h.1.1.1.1

theorem ord2ymd_eq (n : Nat) :
    ord2ymd n = shiftY (400 * ((n - 1) / 146097)) (cycleYmd ((n - 1) % 146097)) := rfl

theorem ord2ymd_validB (n : Nat) : (ord2ymd n).validB = true := by
  rw [ord2ymd_eq]
  have hr : (n - 1) % 146097 < 146097 := by omega
  exact validB_shiftY _ _ (checkCycle _ hr).1 (isLeap_shift400 _ _)

theorem ymd2ord_ord2ymd (n : Nat) (h : 1 ≤ n) : ymd2ord (ord2ymd n) = n := by
  rw [ord2ymd_eq]
  have hr : (n - 1) % 146097 < 146097 := by omega
  rw [ymd2ord_shiftY _ (146097 * ((n - 1) / 146097)) _ (isLeap_shift400 _ _)
    (dby_shift400 _ _ (cycleYmd_year_pos _ hr)), (checkCycle _ hr).2]
  omega

theorem dim_pos (y m : Nat) (h1 : 1 ≤ m) (h2 : m ≤ 12) :
    1 ≤ daysInMonth y m := by
  rcases hL : isLeap y <;> interval_cases m <;>
    simp [daysInMonth, daysInMonthTbl, hL]

theorem dbm_next (y m : Nat) (h1 : 1 ≤ m) (h2 : m ≤ 11) :
    daysBeforeMonth y (m + 1) = daysBeforeMonth y m + daysInMonth y m := by
  rcases hL : isLeap y <;> interval_cases m <;>
    simp [daysBeforeMonth, daysInMonth, daysBeforeMonthTbl, daysInMonthTbl, hL]

theorem dbm_le_334 (y m : Nat) (h1 : 1 ≤ m) (h2 : m ≤ 12) :
    daysBeforeMonth y m + daysInMonth y m ≤ 365 + (if isLeap y = true then 1 else 0) := by
  rcases hL : isLeap y <;> interval_cases m <;>
    simp [daysBeforeMonth, daysInMonth, daysBeforeMonthTbl, daysInMonthTbl, hL]

theorem dbm_mono (y m : Nat) (h1 : 1 ≤ m) :
    ∀ m2, m < m2 → m2 ≤ 12 →
      daysBeforeMonth y m + daysInMonth y m ≤ daysBeforeMonth y m2 := by
  intro m2
  induction m2 with
  | zero => omega
  | succ k ih =>
      intro hlt hle
      by_cases hk : m < k
      · have hstep := dbm_next y k (by omega) (by omega)
        have hd := dim_pos y k (by omega) (by omega)
        have hih := ih hk (by omega)
        omega
      · have hkm : k = m := by omega
        subst hkm
        rw [dbm_next y k (by omega) (by omega)]

theorem validB_fields (d : Date) (h : d.validB = true) :
    1 ≤ d.year ∧ 1 ≤ d.month ∧ d.month ≤ 12 ∧ 1 ≤ d.day ∧
      d.day ≤ daysInMonth d.year d.month := by
  simp only [Date.validB, Bool.and_eq_true, decide_eq_true_eq] at h
  tauto

theorem ymd2ord_year_bounds (d : Date) (h : d.validB = true) :
    daysBeforeYear d.year < ymd2ord d ∧ ymd2ord d ≤ daysBeforeYear (d.year + 1) := by
  obtain ⟨hy, hm1, hm2, hd1, hd2⟩ := validB_fields d h
  have hub := dbm_le_334 d.year d.month hm1 hm2
  constructor
  · unfold ymd2ord
    omega
  · rcases hL : isLeap d.year with _ | _
    · rw [dby_succ_non _ hy hL]
      unfold ymd2ord
      rw [hL] at hub
      simp at hub
      omega
    · rw [dby_succ_leap _ hy hL]
      unfold ymd2ord
      rw [hL] at hub
      simp at hub
      omega

theorem ymd2ord_year_lt (d e : Date) (hd : d.validB = true) (he : e.validB = true)
    (h : d.year < e.year) : ymd2ord d < ymd2ord e := by
  have h1 := (ymd2ord_year_bounds d hd).2
  have h2 := (ymd2ord_year_bounds e he).1
  have h3 := dby_mono (d.year + 1) e.year (by omega)
  omega

theorem ymd2ord_inj (d e : Date) (hd : d.validB = true) (he : e.validB = true)
    (h : ymd2ord d = ymd2ord e) : d = e := by
  obtain ⟨hy, hm1, hm2, hd1, hd2⟩ := validB_fields d hd
  obtain ⟨hy2, hm12, hm22, hd12, hd22⟩ := validB_fields e he
  rcases Nat.lt_trichotomy d.year e.year with hlt | heq | hgt
  · exact absurd h (Nat.ne_of_lt (ymd2ord_year_lt d e hd he hlt))
  · have hmd : daysBeforeMonth e.year d.month + d.day =
        daysBeforeMonth e.year e.month + e.day := by
      unfold ymd2ord at h
      rw [heq] at h
      omega
    have hmm : d.month = e.month := by
      rcases Nat.lt_trichotomy d.month e.month with hml | hme | hmg
      · have ha := dbm_mono e.year d.month hm1 e.month hml hm22
        have hb := dim_congr d.year e.year d.month (by rw [heq])
        omega
      · exact hme
      · have ha := dbm_mono e.year e.month hm12 d.month hmg hm2
        have hb := dim_congr d.year e.year d.month (by rw [heq])
        omega
    have hdd : d.day = e.day := by
      rw [hmm] at hmd
      omega
    cases d
    cases e
    simp_all
  · exact absurd h.symm (Nat.ne_of_lt (ymd2ord_year_lt e d he hd hgt))

theorem ord2ymd_ymd2ord (d : Date) (h : d.validB = true) :
    ord2ymd (ymd2ord d) = d := by
  obtain ⟨hy, hm1, hm2, hd1, hd2⟩ := validB_fields d h
  have hn : 1 ≤ ymd2ord d := by
    unfold ymd2ord
    omega
  exact ymd2ord_inj _ _ (ord2ymd_validB _) h (ymd2ord_ord2ymd _ hn)

theorem calPredD_validB (d : Date) (h : d.validB = true)
    (hne : d ≠ ⟨1, 1, 1⟩) : (calPredD d).validB = true := by
  obtain ⟨hy, hm1, hm2, hd1, hd2⟩ := validB_fields d h
  unfold calPredD
  by_cases h1 : 1 < d.day
  · rw [if_pos h1]
    simp only [Date.validB, Bool.and_eq_true, decide_eq_true_eq]
    refine ⟨⟨⟨⟨by omega, by omega⟩, by omega⟩, by omega⟩, by omega⟩
  · rw [if_neg h1]
    by_cases h2 : 1 < d.month
    · rw [if_pos h2]
      simp only [Date.validB, Bool.and_eq_true, decide_eq_true_eq]
      have := dim_pos d.year (d.month - 1) (by omega) (by omega)
      refine ⟨⟨⟨⟨by omega, by omega⟩, by omega⟩, by omega⟩, by omega⟩
    · rw [if_neg h2]
      have hyy : 2 ≤ d.year := by
        rcases Nat.lt_or_ge d.year 2 with hlt | hge
        · exfalso
          apply hne
          have : d.year = 1 := by omega
          have hm : d.month = 1 := by omega
          have hd : d.day = 1 := by omega
          cases d
          simp_all
        · exact hge
      simp only [Date.validB, Bool.and_eq_true, decide_eq_true_eq]
      have : daysInMonth (d.year - 1) 12 = 31 := by
        rcases hL : isLeap (d.year - 1) <;> simp [daysInMonth, daysInMonthTbl, hL]
      refine ⟨⟨⟨⟨by omega, by omega⟩, by omega⟩, by omega⟩, by omega⟩

theorem ymd2ord_calPredD (d : Date) (h : d.validB = true)
    (hne : d ≠ ⟨1, 1, 1⟩) : ymd2ord d = ymd2ord (calPredD d) + 1 := by
  obtain ⟨hy, hm1, hm2, hd1, hd2⟩ := validB_fields d h
  unfold calPredD
  by_cases h1 : 1 < d.day
  · rw [if_pos h1]
    unfold ymd2ord
    simp only
    omega
  · rw [if_neg h1]
    by_cases h2 : 1 < d.month
    · rw [if_pos h2]
      unfold ymd2ord
      simp only
      have hstep := dbm_next d.year (d.month - 1) (by omega) (by omega)
      rw [show d.month - 1 + 1 = d.month by omega] at hstep
      omega
    · rw [if_neg h2]
      have hyy : 2 ≤ d.year := by
        rcases Nat.lt_or_ge d.year 2 with hlt | hge
        · exfalso
          apply hne
          have : d.year = 1 := by omega
          have hm : d.month = 1 := by omega
          have hd : d.day = 1 := by omega
          cases d
          simp_all
        · exact hge
      unfold ymd2ord
      simp only
      have hm : d.month = 1 := by omega
      have hd : d.day = 1 := by omega
      have hdbm1 : daysBeforeMonth d.year 1 = 0 := by
        simp [daysBeforeMonth, daysBeforeMonthTbl]
      have hdbm12 : daysBeforeMonth (d.year - 1) 12 =
          334 + (if isLeap (d.year - 1) = true then 1 else 0) := by
        rcases hL : isLeap (d.year - 1) <;>
          simp [daysBeforeMonth, daysBeforeMonthTbl, hL]
      have hdby : daysBeforeYear d.year =
          daysBeforeYear (d.year - 1) + 365 +
            (if isLeap (d.year - 1) = true then 1 else 0) := by
        rcases hL : isLeap (d.year - 1) with _ | _
        · have := dby_succ_non (d.year - 1) (by omega) hL
          rw [show d.year - 1 + 1 = d.year by omega] at this
          simp [this, hL]
        · have := dby_succ_leap (d.year - 1) (by omega) hL
          rw [show d.year - 1 + 1 = d.year by omega] at this
          simp [this, hL]
      rw [hm, hd, hdbm1, hdbm12, hdby]
      by_cases hL2 : isLeap (d.year - 1) = true <;> simp [hL2]

theorem subOneDay (d : Date) (h : d.validB = true) (hne : d ≠ ⟨1, 1, 1⟩) :
    ord2ymd (ymd2ord d - 1) = calPredD d := by
  have h1 := ymd2ord_calPredD d h hne
  rw [h1, Nat.add_sub_cancel]
  exact ord2ymd_ymd2ord _ (calPredD_validB d h hne)















theorem digitChar_isDigit (x : Nat) (h : x < 10) :
    (Nat.digitChar x).isDigit = true := by
  interval_cases x <;> decide

theorem fmtDate_data (d : Date) :
    (fmtDate d).data =
      [Nat.digitChar (d.year / 1000 % 10), Nat.digitChar (d.year / 100 % 10),
       Nat.digitChar (d.year / 10 % 10), Nat.digitChar (d.year % 10), '-',
       Nat.digitChar (d.month / 10 % 10), Nat.digitChar (d.month % 10), '-',
       Nat.digitChar (d.day / 10 % 10), Nat.digitChar (d.day % 10)] := by
  simp [fmtDate, pad4, pad2, String.data_append]

theorem isYMDfmt_fmtDate (d : Date) : isYMDfmt (fmtDate d) = true := by
  rw [isYMDfmt, fmtDate_data]
  simp [digitChar_isDigit, Nat.mod_lt]

theorem dimTbl_le (m : Nat) : daysInMonthTbl m ≤ 31 := by
  unfold daysInMonthTbl
  split <;> omega

theorem dim_le (y m : Nat) : daysInMonth y m ≤ 31 := by
  unfold daysInMonth
  split
  · omega
  · exact dimTbl_le m

theorem calPredD_year_bounds (d : Date) :
    d.year - 1 ≤ (calPredD d).year ∧ (calPredD d).year ≤ d.year := by
  unfold calPredD
  split
  · simp
  · split <;> simp

/-- C5: the date strings computed for "yesterday" and "two days ago"
equal the "today" string minus exactly 1 and exactly 2 calendar days
respectively, and all three strings are in the same YYYY-MM-DD format. -/
theorem claim_C5 (d : Date) (hv : d.validB = true)
    (hy1 : 1001 ≤ d.year) (hy2 : d.year ≤ 9999) :
    yesterdayStr d = fmtDate (calPredD d) ∧
    twoDaysAgoStr d = fmtDate (calPredD (calPredD d)) ∧
    isYMDfmt (todayStr d) = true ∧ isYMDfmt (yesterdayStr d) = true ∧
    isYMDfmt (twoDaysAgoStr d) = true := by
  have hne : d ≠ ⟨1, 1, 1⟩ := by
    intro hc
    rw [hc] at hy1
    simp at hy1
  have hsub1 : ord2ymd (ymd2ord d - 1) = calPredD d := subOneDay d hv hne
  have hpv : (calPredD d).validB = true := calPredD_validB d hv hne
  have hpyr := calPredD_year_bounds d
  have hpne : calPredD d ≠ ⟨1, 1, 1⟩ := by
    intro hc
    rw [hc] at hpyr
    simp at hpyr
    omega
  have hord : ymd2ord d = ymd2ord (calPredD d) + 1 := ymd2ord_calPredD d hv hne
  have hordp : 1 ≤ ymd2ord (calPredD d) := by
    obtain ⟨a, b, c, e, f⟩ := validB_fields _ hpv
    unfold ymd2ord
    omega
  have hsub2 : ord2ymd (ymd2ord d - 2) = calPredD (calPredD d) := by
    have : ymd2ord d - 2 = ymd2ord (calPredD d) - 1 := by omega
    rw [this]
    exact subOneDay _ hpv hpne
  refine ⟨?_, ?_, ?_, ?_, ?_⟩
  · rw [yesterdayStr, hsub1]
  · rw [twoDaysAgoStr, hsub2]
  · exact isYMDfmt_fmtDate d
  · exact isYMDfmt_fmtDate _
  · exact isYMDfmt_fmtDate _

/-! ## Evaluating the script: monad and well-typedness lemmas -/

theorem bindM_def {α β : Type} (x : M α) (f : α → M β) (st : RunSt) :
    (x >>= f) st =
      match x st with
      | (Except.ok a, st2) => f a st2
      | (Except.error h, st2) => (Except.error h, st2) := rfl

theorem pureM_def {α : Type} (a : α) (st : RunSt) :
    (pure a : M α) st = (Except.ok a, st) := rfl

theorem liftE_def {α : Type} (e : Except Halt α) (st : RunSt) :
    liftE e st = (e, st) := rfl

theorem emit_def (l : OutLine) (o : Nat → Resp) (k : Nat) (tr : List Request)
    (out : List OutLine) :
    emit l ⟨o, k, tr, out⟩ = (Except.ok (), ⟨o, k, tr, out ++ [l]⟩) := rfl

theorem WT_respJ (r : Resp) (h : WTResp r = true) : WTJ (respJ r) = true := by
  cases r with
  | ok j => exact h
  | httpError c b => rfl
  | netError => simp [WTResp] at h
  | badBody => simp [WTResp] at h

theorem WTJ_isObj (j : J) (h : WTJ j = true) : ∃ fs, j = J.jobj fs := by
  cases j with
  | jobj fs => exact ⟨fs, rfl⟩
  | null => simp [WTJ] at h
  | jbool b => simp [WTJ] at h
  | jnum n => simp [WTJ] at h
  | jstr s => simp [WTJ] at h
  | jarr xs => simp [WTJ] at h

theorem WTJ_parts (fs : List (String × J)) (h : WTJ (J.jobj fs) = true) :
    wtStrField fs "error" = true ∧ wtStrField fs "token" = true ∧
    wtObjField fs "plan" = true ∧ wtObjField fs "dashboard" = true ∧
    wtArrField fs "report" = true ∧ wtArrField fs "logs" = true ∧
    wtArrField fs "users" = true ∧ wtListField fs "shifts" wtShiftElem = true ∧
    wtListField fs "machines" wtMachineElem = true ∧
    wtListField fs "features" wtFeatElem = true := by
  simp only [WTJ, Bool.and_eq_true] at h
  tauto

theorem wtStrField_cases (fs : List (String × J)) (k : String)
    (h : wtStrField fs k = true) :
    List.lookup k fs = none ∨ ∃ s, List.lookup k fs = some (J.jstr s) := by
  unfold wtStrField at h
  rcases hl : List.lookup k fs with _ | v
  · exact Or.inl rfl
  · rw [hl] at h
    cases v <;> simp at h
    exact Or.inr ⟨_, rfl⟩

theorem wtObjField_cases (fs : List (String × J)) (k : String)
    (h : wtObjField fs k = true) :
    List.lookup k fs = none ∨ ∃ g, List.lookup k fs = some (J.jobj g) := by
  unfold wtObjField at h
  rcases hl : List.lookup k fs with _ | v
  · exact Or.inl rfl
  · rw [hl] at h
    cases v <;> simp at h
    exact Or.inr ⟨_, rfl⟩

theorem wtArrField_cases (fs : List (String × J)) (k : String)
    (h : wtArrField fs k = true) :
    List.lookup k fs = none ∨ ∃ xs, List.lookup k fs = some (J.jarr xs) := by
  unfold wtArrField at h
  rcases hl : List.lookup k fs with _ | v
  · exact Or.inl rfl
  · rw [hl] at h
    cases v <;> simp at h
    exact Or.inr ⟨_, rfl⟩

theorem wtListField_cases (fs : List (String × J)) (k : String) (p : J → Bool)
    (h : wtListField fs k p = true) :
    List.lookup k fs = none ∨
      ∃ xs, List.lookup k fs = some (J.jarr xs) ∧ xs.all p = true := by
  unfold wtListField at h
  rcases hl : List.lookup k fs with _ | v
  · exact Or.inl rfl
  · rw [hl] at h
    cases v <;> simp at h
    exact Or.inr ⟨_, rfl, by simpa⟩

theorem pyGet_obj (fs : List (String × J)) (k : String) (dflt : J) :
    pyGet (J.jobj fs) k dflt = Except.ok (jGetD (J.jobj fs) k dflt) := rfl

theorem pyGet_wt (j : J) (h : WTJ j = true) (k : String) (dflt : J) :
    pyGet j k dflt = Except.ok (jGetD j k dflt) := by
  obtain ⟨fs, rfl⟩ := WTJ_isObj j h
  rfl

theorem errField_wt (j : J) (h : WTJ j = true) (dflt : String) :
    jGetD j "error" (J.jstr dflt) =
      J.jstr (match jGetD j "error" (J.jstr dflt) with
              | J.jstr s => s
              | _ => "") := by
  obtain ⟨fs, rfl⟩ := WTJ_isObj j h
  rcases wtStrField_cases fs "error" (WTJ_parts fs h).1 with hl | ⟨s, hl⟩ <;>
    simp [jGetD, hl]

theorem userOkCond_wt (j : J) (h : WTJ j = true) :
    userOkCond j = Except.ok (userCondB j) := by
  obtain ⟨fs, rfl⟩ := WTJ_isObj j h
  unfold userOkCond userCondB
  simp only [pyGet_obj, Bind.bind, Except.bind]
  rcases ht : (jGetD (J.jobj fs) "success" J.null).truthy with _ | _
  · simp only [ht, Bool.false_eq_true, if_false, Bool.false_or]
    rcases wtStrField_cases fs "error" (WTJ_parts fs h).1 with hl | ⟨s, hl⟩ <;>
      simp [pyInStr, errStrOf, strOfJ, jGetD, hl]
  · simp [ht, pure, Except.pure]

theorem machineOkCond_wt (j : J) (h : WTJ j = true) :
    machineOkCond j = Except.ok (machineCondB j) := by
  obtain ⟨fs, rfl⟩ := WTJ_isObj j h
  unfold machineOkCond machineCondB
  simp only [pyGet_obj, Bind.bind, Except.bind]
  rcases ht : (jGetD (J.jobj fs) "success" J.null).truthy with _ | _
  · simp only [ht, Bool.false_eq_true, if_false, Bool.false_or]
    rcases wtStrField_cases fs "error" (WTJ_parts fs h).1 with hl | ⟨s, hl⟩ <;>
      simp [errStrOf, strOfJ, jGetD, hl, Bool.or_assoc]
  · simp [ht, pure, Except.pure]

theorem api_wt (m p : String) (b : Option J) (t : Option String)
    (o : Nat → Resp) (k : Nat) (tr : List Request) (out : List OutLine)
    (h : WTResp (o k) = true) :
    api m p b t ⟨o, k, tr, out⟩ =
      (Except.ok (respOf o k), ⟨o, k + 1, tr ++ [⟨m, p, b, t⟩], out⟩) := by
  rcases ho : o k with j | ⟨c, b2⟩ | _ | _
  · simp [api, respOf, ho, respJ]
  · simp [api, respOf, ho, respJ]
  · rw [ho] at h
    simp [WTResp] at h
  · rw [ho] at h
    simp [WTResp] at h

/-! ## Loop characterisation lemmas -/

theorem bind_ok_step {α β : Type} (x : M α) (f : α → M β) (st st2 : RunSt)
    (a : α) (hx : x st = (Except.ok a, st2)) : (x >>= f) st = f a st2 := by
  rw [bindM_def, hx]

theorem usersLoop_spec (tok : String) (o : Nat → Resp)
    (hWT : ∀ j, WTResp (o j) = true) :
    ∀ us k tr out, usersLoop tok us ⟨o, k, tr, out⟩ =
      (Except.ok (), ⟨o, k + us.length, tr ++ usersTraceSpec tok us,
        out ++ usersOutSpec o k us⟩) := by
  intro us
  induction us with
  | nil =>
      intro k tr out
      simp [usersLoop, usersTraceSpec, usersOutSpec, pureM_def]
  | cons u rest ih =>
      intro k tr out
      have hwtJ : WTJ (respOf o k) = true := WT_respJ _ (hWT k)
      rw [usersLoop,
        bind_ok_step _ _ _ _ _ (api_wt _ _ _ _ _ _ _ _ (hWT k))]
      try simp only []
      rw [bind_ok_step _ _ _ _ _ (by rw [liftE_def, userOkCond_wt _ hwtJ])]
      try simp only []
      rcases hc : userCondB (respOf o k) with _ | _
      · rw [if_neg (by simp [hc])]
        rw [bind_ok_step _ _ _ _ _ (by rw [liftE_def, pyGet_wt _ hwtJ])]
        try simp only []
        rw [bind_ok_step _ _ _ _ _ (emit_def _ _ _ _ _)]
        try simp only []
        rw [ih]
        simp [usersTraceSpec, usersOutSpec, userLineSpec, hc,
          List.append_assoc, Nat.add_assoc, Nat.add_comm 1 rest.length]
      · rw [if_pos (by simp [hc])]
        rw [bind_ok_step _ _ _ _ _ (emit_def _ _ _ _ _)]
        try simp only []
        rw [ih]
        simp [usersTraceSpec, usersOutSpec, userLineSpec, hc,
          List.append_assoc, Nat.add_assoc, Nat.add_comm 1 rest.length]

theorem machinesLoop_spec (tok : String) (o : Nat → Resp)
    (hWT : ∀ j, WTResp (o j) = true) :
    ∀ ms k tr out, machinesLoop tok ms ⟨o, k, tr, out⟩ =
      (Except.ok (), ⟨o, k + ms.length, tr ++ machinesTraceSpec tok ms,
        out ++ machinesOutSpec o k ms⟩) := by
  intro ms
  induction ms with
  | nil =>
      intro k tr out
      simp [machinesLoop, machinesTraceSpec, machinesOutSpec, pureM_def]
  | cons m rest ih =>
      intro k tr out
      have hwtJ : WTJ (respOf o k) = true := WT_respJ _ (hWT k)
      rw [machinesLoop,
        bind_ok_step _ _ _ _ _ (api_wt _ _ _ _ _ _ _ _ (hWT k))]
      try simp only []
      rw [bind_ok_step _ _ _ _ _ (by rw [liftE_def, machineOkCond_wt _ hwtJ])]
      try simp only []
      rcases hc : machineCondB (respOf o k) with _ | _
      · rw [if_neg (by simp [hc])]
        rw [bind_ok_step _ _ _ _ _ (by rw [liftE_def, pyGet_wt _ hwtJ])]
        try simp only []
        rw [bind_ok_step _ _ _ _ _ (emit_def _ _ _ _ _)]
        try simp only []
        rw [ih]
        simp [machinesTraceSpec, machinesOutSpec, machineLineSpec, hc,
          List.append_assoc, Nat.add_assoc, Nat.add_comm 1 rest.length]
      · rw [if_pos (by simp [hc])]
        rw [bind_ok_step _ _ _ _ _ (emit_def _ _ _ _ _)]
        try simp only []
        rw [ih]
        simp [machinesTraceSpec, machinesOutSpec, machineLineSpec, hc,
          List.append_assoc, Nat.add_assoc, Nat.add_comm 1 rest.length]

theorem planObj_wt (j : J) (h : WTJ j = true) :
    ∃ g, jGetD j "plan" (J.jobj []) = J.jobj g := by
  obtain ⟨fs, rfl⟩ := WTJ_isObj j h
  rcases wtObjField_cases fs "plan" (WTJ_parts fs h).2.2.1 with hl | ⟨g, hl⟩
  · exact ⟨[], by simp [jGetD, hl]⟩
  · exact ⟨g, by simp [jGetD, hl]⟩

theorem plansLoop_spec (tok : String) (mm : List (String × J))
    (dates : String × String × String) (o : Nat → Resp)
    (hWT : ∀ j, WTResp (o j) = true) :
    ∀ ps i acc k tr out, plansLoop tok mm dates i ps acc ⟨o, k, tr, out⟩ =
      (Except.ok (planIdsSpec o k i ps acc),
        ⟨o, k + ps.length, tr ++ plansTraceSpec tok mm dates ps,
          out ++ plansOutSpec o dates k i ps⟩) := by
  intro ps
  induction ps with
  | nil =>
      intro i acc k tr out
      simp [plansLoop, planIdsSpec, plansTraceSpec, plansOutSpec, pureM_def]
  | cons p rest ih =>
      intro i acc k tr out
      have hwtJ : WTJ (respOf o k) = true := WT_respJ _ (hWT k)
      rw [plansLoop,
        bind_ok_step _ _ _ _ _ (api_wt _ _ _ _ _ _ _ _ (hWT k))]
      try simp only []
      rw [bind_ok_step _ _ _ _ _ (by rw [liftE_def, pyGet_wt _ hwtJ])]
      try simp only []
      rcases hc : succB (respOf o k) with _ | _
      · rw [if_neg (by simp [succB] at hc; simp [hc])]
        rw [bind_ok_step _ _ _ _ _ (by rw [liftE_def, pyGet_wt _ hwtJ])]
        try simp only []
        rw [bind_ok_step _ _ _ _ _ (emit_def _ _ _ _ _)]
        try simp only []
        rw [ih]
        simp [plansTraceSpec, plansOutSpec, planLineSpec, planIdsSpec, hc,
          List.append_assoc, Nat.add_assoc, Nat.add_comm 1 rest.length]
      · rw [if_pos (by simp [succB] at hc; simp [hc])]
        obtain ⟨g, hg⟩ := planObj_wt _ hwtJ
        rw [bind_ok_step _ _ _ _ _ (by rw [liftE_def, pyGet_wt _ hwtJ])]
        try simp only []
        rw [bind_ok_step _ _ _ _ _ (by rw [liftE_def, hg, pyGet_obj])]
        try simp only []
        rw [bind_ok_step _ _ _ _ _ (emit_def _ _ _ _ _)]
        try simp only []
        rw [ih]
        simp [plansTraceSpec, plansOutSpec, planLineSpec, planIdsSpec,
          planPidSpec, hc, hg,
          List.append_assoc, Nat.add_assoc, Nat.add_comm 1 rest.length]

theorem patchLoop_spec (tok : String) (pids : List (Nat × J)) (status : String)
    (o : Nat → Resp) (hWT : ∀ j, WTResp (o j) = true) :
    ∀ idxs k tr out, patchLoop tok pids status idxs ⟨o, k, tr, out⟩ =
      (Except.ok (), ⟨o, k + (patchTraceSpec tok pids status idxs).length,
        tr ++ patchTraceSpec tok pids status idxs, out⟩) := by
  intro idxs
  induction idxs with
  | nil =>
      intro k tr out
      simp [patchLoop, patchTraceSpec, pureM_def]
  | cons i rest ih =>
      intro k tr out
      rw [patchLoop]
      rcases hl : List.lookup i pids with _ | pid
      · try simp only []
        rw [ih]
        simp [patchTraceSpec, hl]
      · try simp only []
        rcases ht : pid.truthy with _ | _
        · rw [if_neg (by simp [ht]), ih]
          simp [patchTraceSpec, hl, ht]
        · rw [if_pos (by simp [ht])]
          rw [bind_ok_step _ _ _ _ _ (api_wt _ _ _ _ _ _ _ _ (hWT k))]
          try simp only []
          rw [ih]
          simp [patchTraceSpec, hl, ht, List.append_assoc,
            Nat.add_assoc, Nat.add_comm 1]

theorem logsLoop_spec (tok : String) (pids : List (Nat × J))
    (mm : List (String × J)) (o : Nat → Resp)
    (hWT : ∀ j, WTResp (o j) = true) :
    ∀ lgs sc fc k tr out, logsLoop tok pids mm lgs sc fc ⟨o, k, tr, out⟩ =
      (Except.ok (logsCountsSpec o k lgs (sc, fc)),
        ⟨o, k + lgs.length, tr ++ logsTraceSpec tok pids mm lgs, out⟩) := by
  intro lgs
  induction lgs with
  | nil =>
      intro sc fc k tr out
      simp [logsLoop, logsCountsSpec, logsTraceSpec, pureM_def]
  | cons lg rest ih =>
      intro sc fc k tr out
      have hwtJ : WTJ (respOf o k) = true := WT_respJ _ (hWT k)
      rw [logsLoop,
        bind_ok_step _ _ _ _ _ (api_wt _ _ _ _ _ _ _ _ (hWT k))]
      try simp only []
      rw [bind_ok_step _ _ _ _ _ (by rw [liftE_def, pyGet_wt _ hwtJ])]
      try simp only []
      rcases hc : succB (respOf o k) with _ | _
      · rw [if_neg (by simp [succB] at hc; simp [hc]), ih]
        simp [logsCountsSpec, logsTraceSpec, hc, List.append_assoc,
          Nat.add_assoc, Nat.add_comm 1 rest.length]
      · rw [if_pos (by simp [succB] at hc; simp [hc]), ih]
        simp [logsCountsSpec, logsTraceSpec, hc, List.append_assoc,
          Nat.add_assoc, Nat.add_comm 1 rest.length]

theorem downLoop_spec (tok : String) (mm : List (String × J)) (nowTot : Nat)
    (o : Nat → Resp) (hWT : ∀ j, WTResp (o j) = true) :
    ∀ rs k tr out, downLoop tok mm nowTot rs ⟨o, k, tr, out⟩ =
      (Except.ok (), ⟨o, k + rs.length, tr ++ downTraceSpec tok mm nowTot rs,
        out ++ downOutSpec o mm nowTot k rs⟩) := by
  intro rs
  induction rs with
  | nil =>
      intro k tr out
      simp [downLoop, downTraceSpec, downOutSpec, pureM_def]
  | cons r rest ih =>
      intro k tr out
      have hwtJ : WTJ (respOf o k) = true := WT_respJ _ (hWT k)
      rw [downLoop]
      try simp only []
      rw [bind_ok_step _ _ _ _ _ (api_wt _ _ _ _ _ _ _ _ (hWT k))]
      try simp only []
      rw [bind_ok_step _ _ _ _ _ (by rw [liftE_def, pyGet_wt _ hwtJ])]
      try simp only []
      rcases hc : succB (respOf o k) with _ | _
      · rw [if_neg (by simp [succB] at hc; simp [hc])]
        rw [bind_ok_step _ _ _ _ _ (by rw [liftE_def, pyGet_wt _ hwtJ])]
        try simp only []
        rw [bind_ok_step _ _ _ _ _ (emit_def _ _ _ _ _)]
        try simp only []
        rw [ih]
        simp [downTraceSpec, downOutSpec, downLineSpec, hc,
          List.append_assoc, Nat.add_assoc, Nat.add_comm 1 rest.length]
      · rw [if_pos (by simp [succB] at hc; simp [hc])]
        rw [bind_ok_step _ _ _ _ _
          (by rw [liftE_def]; exact congrArg (fun e => (e, _)) (pyGet_obj _ _ _))]
        try simp only []
        rw [bind_ok_step _ _ _ _ _ (emit_def _ _ _ _ _)]
        try simp only []
        rw [ih]
        simp [downTraceSpec, downOutSpec, downLineSpec, mkDownJ, hc,
          List.append_assoc, Nat.add_assoc, Nat.add_comm 1 rest.length]

theorem wtShiftElem_cases (x : J) (h : wtShiftElem x = true) :
    ∃ g sv, x = J.jobj g ∧ List.lookup "shift_name" g = some (J.jstr sv) := by
  rcases x with _ | _ | _ | _ | _ | g
  iterate 5 simp [wtShiftElem] at h
  rcases hlk : List.lookup "shift_name" g with _ | v
  · rw [wtShiftElem, hlk] at h
    simp at h
  · rcases v with _ | _ | _ | sv | _ | _
    iterate 3 (rw [wtShiftElem, hlk] at h; simp at h)
    case jstr => exact ⟨g, sv, rfl, hlk⟩
    all_goals (rw [wtShiftElem, hlk] at h; simp at h)

theorem wtMachineElem_cases (x : J) (h : wtMachineElem x = true) :
    ∃ g cs v, x = J.jobj g ∧ List.lookup "machine_code" g = some (J.jstr cs) ∧
      List.lookup "machine_id" g = some v := by
  rcases x with _ | _ | _ | _ | _ | g
  iterate 5 simp [wtMachineElem] at h
  rcases hlk : List.lookup "machine_code" g with _ | c
  · rw [wtMachineElem, hlk] at h
    simp at h
  · rcases c with _ | _ | _ | cs | _ | _
    iterate 3 (rw [wtMachineElem, hlk] at h; simp at h)
    case jstr =>
      rw [wtMachineElem, hlk] at h
      rcases hli : List.lookup "machine_id" g with _ | v
      · rw [hli] at h
        simp at h
      · exact ⟨g, cs, v, rfl, hlk, hli⟩
    all_goals (rw [wtMachineElem, hlk] at h; simp at h)

theorem wtFeatElem_cases (x : J) (h : wtFeatElem x = true) :
    ∃ g ids aps uis, x = J.jobj g ∧
      List.lookup "id" g = some (J.jstr ids) ∧
      List.lookup "api" g = some (J.jstr aps) ∧
      List.lookup "ui" g = some (J.jstr uis) := by
  rcases x with _ | _ | _ | _ | _ | g
  iterate 5 simp [wtFeatElem] at h
  rw [wtFeatElem, Bool.and_eq_true, Bool.and_eq_true] at h
  obtain ⟨⟨h1, h2⟩, h3⟩ := h
  rcases hl1 : List.lookup "id" g with _ | v1
  · rw [hl1] at h1
    simp at h1
  · rcases v1 with _ | _ | _ | ids | _ | _ <;> rw [hl1] at h1 <;> simp at h1
    case jstr =>
      rcases hl2 : List.lookup "api" g with _ | v2
      · rw [hl2] at h2
        simp at h2
      · rcases v2 with _ | _ | _ | aps | _ | _ <;> rw [hl2] at h2 <;> simp at h2
        case jstr =>
          rcases hl3 : List.lookup "ui" g with _ | v3
          · rw [hl3] at h3
            simp at h3
          · rcases v3 with _ | _ | _ | uis | _ | _ <;> rw [hl3] at h3 <;> simp at h3
            case jstr => exact ⟨g, ids, aps, uis, rfl, hl1, hl2, hl3⟩

theorem shiftNamesGo_wt : ∀ xs, xs.all wtShiftElem = true →
    shiftNamesGo xs =
      Except.ok (xs.map (fun x => strOfJ (jGetD x "shift_name" J.null))) := by
  intro xs
  induction xs with
  | nil => intro _; rfl
  | cons x rest ih =>
      intro hall
      simp only [List.all_cons, Bool.and_eq_true] at hall
      obtain ⟨g, sv, rfl, hlk⟩ := wtShiftElem_cases x hall.1
      rw [shiftNamesGo]
      simp [pyIndex, hlk, Bind.bind, Except.bind, ih hall.2, jGetD, strOfJ]

theorem shiftNames_wt (xs : List J) (hall : xs.all wtShiftElem = true) :
    shiftNames (J.jarr xs) = Except.ok (shiftNamesSpec (J.jarr xs)) := by
  rw [shiftNames, shiftNamesSpec, shiftNamesGo_wt xs hall]

theorem buildMapGo_wt : ∀ xs acc, xs.all wtMachineElem = true →
    buildMapGo xs acc = Except.ok (machineMapSpecGo xs acc) := by
  intro xs
  induction xs with
  | nil => intro acc _; rfl
  | cons x rest ih =>
      intro acc hall
      simp only [List.all_cons, Bool.and_eq_true] at hall
      obtain ⟨g, cs, v, rfl, hlk, hli⟩ := wtMachineElem_cases x hall.1
      rw [buildMapGo, machineMapSpecGo]
      simp [pyIndex, hlk, hli, Bind.bind, Except.bind, jGetD, strOfJ, ih _ hall.2]

theorem buildMachineMap_wt (xs : List J) (hall : xs.all wtMachineElem = true) :
    buildMachineMap (J.jarr xs) = Except.ok (machineMapSpec (J.jarr xs)) := by
  rw [buildMachineMap, machineMapSpec, buildMapGo_wt xs [] hall]

theorem featsLoopList_wt (o : Nat → Resp) :
    ∀ xs k tr out, xs.all wtFeatElem = true →
      featsLoopList xs ⟨o, k, tr, out⟩ =
        (Except.ok (), ⟨o, k, tr, out ++ featsOutSpec xs⟩) := by
  intro xs
  induction xs with
  | nil =>
      intro k tr out _
      simp [featsLoopList, featsOutSpec, pureM_def]
  | cons f rest ih =>
      intro k tr out hall
      simp only [List.all_cons, Bool.and_eq_true] at hall
      obtain ⟨g, ids, aps, uis, rfl, hl1, hl2, hl3⟩ := wtFeatElem_cases f hall.1
      rw [featsLoopList]
      rw [bind_ok_step _ _ _ _ _ (by rw [liftE_def, pyIndex, hl1])]
      try simp only []
      rw [bind_ok_step _ _ _ _ _ (by rw [liftE_def, pyGet_obj])]
      try simp only []
      rw [show jGetD (J.jobj g) "api" J.null = J.jstr aps by simp [jGetD, hl2]]
      try simp only []
      rw [bind_ok_step _ _ _ _ _ (by rw [liftE_def, pyGet_obj])]
      try simp only []
      rw [show jGetD (J.jobj g) "ui" J.null = J.jstr uis by simp [jGetD, hl3]]
      try simp only []
      rw [bind_ok_step _ _ _ _ _ (by rw [liftE_def, pyGet_obj])]
      try simp only []
      rw [bind_ok_step _ _ _ _ _ (emit_def _ _ _ _ _)]
      try simp only []
      rw [ih _ _ _ hall.2]
      simp [featsOutSpec, featLineSpec, jGetD, hl1, hl2, hl3, strOfJ,
        List.append_assoc]

theorem tryCrash_ok {α : Type} (x handler : M α) (st st2 : RunSt) (a : α)
    (hx : x st = (Except.ok a, st2)) : tryCrash x handler st = (Except.ok a, st2) := by
  unfold tryCrash
  rw [hx]

theorem jStr_jstr (s : String) : jStr (J.jstr s) = s := rfl

theorem healthOk_cases (o : Nat → Resp) (hWT : WTResp (o 0) = true)
    (hH : healthOkB (o 0) = true) :
    ∃ g, respOf o 0 = J.jobj g ∧
      (jGetD (J.jobj g) "success" J.null).truthy = true := by
  rcases ho : o 0 with j | ⟨c, b⟩ | _ | _ <;> rw [ho] at hH hWT
  · obtain ⟨fs, rfl⟩ := WTJ_isObj j (by simpa [WTResp] using hWT)
    exact ⟨fs, by simp [respOf, ho, respJ], by simpa [healthOkB] using hH⟩
  · simp [healthOkB] at hH
  · simp [healthOkB] at hH
  · simp [healthOkB] at hH

theorem loginOk_cases (o : Nat → Resp) (hL : loginOkB (o 1) = true) :
    ∃ fs s, respOf o 1 = J.jobj fs ∧
      List.lookup "token" fs = some (J.jstr s) ∧ (s != "") = true := by
  rcases ho : o 1 with j | ⟨c, b⟩ | _ | _ <;> rw [ho] at hL
  · rcases j with _ | _ | _ | _ | _ | fs
    iterate 5 simp [loginOkB, jGetD] at hL
    rcases hlk : List.lookup "token" fs with _ | v
    · simp [loginOkB, jGetD, hlk] at hL
    · rcases v with _ | _ | _ | sv | _ | _ <;>
        simp [loginOkB, jGetD, hlk] at hL
      case jstr =>
        exact ⟨fs, sv, by simp [respOf, ho, respJ], hlk, by simpa using hL⟩
  · simp [loginOkB] at hL
  · simp [loginOkB] at hL
  · simp [loginOkB] at hL

theorem objField_getD (fs : List (String × J)) (k : String)
    (h : wtObjField fs k = true) :
    ∃ g, jGetD (J.jobj fs) k (J.jobj []) = J.jobj g := by
  rcases wtObjField_cases fs k h with hl | ⟨g, hl⟩
  · exact ⟨[], by simp [jGetD, hl]⟩
  · exact ⟨g, by simp [jGetD, hl]⟩

theorem arrField_getD (fs : List (String × J)) (k : String)
    (h : wtArrField fs k = true) :
    ∃ xs, jGetD (J.jobj fs) k (J.jarr []) = J.jarr xs := by
  rcases wtArrField_cases fs k h with hl | ⟨xs, hl⟩
  · exact ⟨[], by simp [jGetD, hl]⟩
  · exact ⟨xs, by simp [jGetD, hl]⟩

theorem listField_getD (fs : List (String × J)) (k : String) (p : J → Bool)
    (h : wtListField fs k p = true) :
    ∃ xs, jGetD (J.jobj fs) k (J.jarr []) = J.jarr xs ∧ xs.all p = true := by
  rcases wtListField_cases fs k p h with hl | ⟨xs, hl, hall⟩
  · exact ⟨[], by simp [jGetD, hl], rfl⟩
  · exact ⟨xs, by simp [jGetD, hl], hall⟩

theorem pyLen_arr (xs : List J) : pyLen (J.jarr xs) = Except.ok xs.length := rfl

theorem pyLen_str (s : String) : pyLen (J.jstr s) = Except.ok s.length := rfl

theorem dashLine_spec (g : List (String × J)) (label key suffix : String)
    (o : Nat → Resp) (k : Nat) (tr : List Request) (out : List OutLine) :
    dashLine (J.jobj g) label key suffix ⟨o, k, tr, out⟩ =
      (Except.ok (), ⟨o, k, tr,
        out ++ [OutLine.rawL (label ++ jStr (jGetD (J.jobj g) key (J.jstr "N/A")) ++ suffix)]⟩) := by
  rw [dashLine,
    bind_ok_step _ _ _ _ _ (by rw [liftE_def, pyGet_obj]), emit_def]

theorem WTJ_ofObj (fs : List (String × J)) (j : J) (hj : j = J.jobj fs)
    (h : WTJ j = true) : WTJ (J.jobj fs) = true := hj ▸ h

theorem jGetD_shifts_arr (j : J) (h : WTJ j = true) :
    ∃ xs, jGetD j "shifts" (J.jarr []) = J.jarr xs ∧ xs.all wtShiftElem = true := by
  obtain ⟨fs, rfl⟩ := WTJ_isObj j h
  exact listField_getD fs _ _ (WTJ_parts fs h).2.2.2.2.2.2.2.1

theorem jGetD_machines_arr (j : J) (h : WTJ j = true) :
    ∃ xs, jGetD j "machines" (J.jarr []) = J.jarr xs ∧
      xs.all wtMachineElem = true := by
  obtain ⟨fs, rfl⟩ := WTJ_isObj j h
  exact listField_getD fs _ _ (WTJ_parts fs h).2.2.2.2.2.2.2.2.1

theorem jGetD_features_arr (j : J) (h : WTJ j = true) :
    ∃ xs, jGetD j "features" (J.jarr []) = J.jarr xs ∧
      xs.all wtFeatElem = true := by
  obtain ⟨fs, rfl⟩ := WTJ_isObj j h
  exact listField_getD fs _ _ (WTJ_parts fs h).2.2.2.2.2.2.2.2.2

theorem jGetD_report_arr (j : J) (h : WTJ j = true) :
    ∃ xs, jGetD j "report" (J.jarr []) = J.jarr xs := by
  obtain ⟨fs, rfl⟩ := WTJ_isObj j h
  exact arrField_getD fs _ (WTJ_parts fs h).2.2.2.2.1

theorem jGetD_logs_arr (j : J) (h : WTJ j = true) :
    ∃ xs, jGetD j "logs" (J.jarr []) = J.jarr xs := by
  obtain ⟨fs, rfl⟩ := WTJ_isObj j h
  exact arrField_getD fs _ (WTJ_parts fs h).2.2.2.2.2.1

theorem jGetD_users_arr (j : J) (h : WTJ j = true) :
    ∃ xs, jGetD j "users" (J.jarr []) = J.jarr xs := by
  obtain ⟨fs, rfl⟩ := WTJ_isObj j h
  exact arrField_getD fs _ (WTJ_parts fs h).2.2.2.2.2.2.1

theorem pyLen_arrField (j : J) (key : String)
    (harr : ∃ xs, jGetD j key (J.jarr []) = J.jarr xs) :
    pyLen (jGetD j key (J.jarr [])) =
      Except.ok (jLenSpec (jGetD j key (J.jarr []))) := by
  obtain ⟨xs, hxs⟩ := harr
  rw [hxs]
  rfl

theorem shiftNames_field (j : J) (h : WTJ j = true) :
    shiftNames (jGetD j "shifts" (J.jarr [])) =
      Except.ok (shiftNamesSpec (jGetD j "shifts" (J.jarr []))) := by
  obtain ⟨xs, hxs, hall⟩ := jGetD_shifts_arr j h
  rw [hxs]
  exact shiftNames_wt xs hall

theorem buildMachineMap_field (j : J) (h : WTJ j = true) :
    buildMachineMap (jGetD j "machines" (J.jarr [])) =
      Except.ok (machineMapSpec (jGetD j "machines" (J.jarr []))) := by
  obtain ⟨xs, hxs, hall⟩ := jGetD_machines_arr j h
  rw [hxs]
  exact buildMachineMap_wt xs hall

theorem featsLoop_field (j : J) (h : WTJ j = true) (o : Nat → Resp) (k : Nat)
    (tr : List Request) (out : List OutLine) :
    featsLoop (jGetD j "features" (J.jarr [])) ⟨o, k, tr, out⟩ =
      (Except.ok (), ⟨o, k, tr,
        out ++ featsOutSpec (arrOf (jGetD j "features" (J.jarr [])))⟩) := by
  obtain ⟨xs, hxs, hall⟩ := jGetD_features_arr j h
  rw [hxs]
  rw [featsLoop, featsLoopList_wt o xs k tr out hall]
  rfl

theorem dashLine_wt (j : J) (h : WTJ j = true) (label key suffix : String)
    (o : Nat → Resp) (k : Nat) (tr : List Request) (out : List OutLine) :
    dashLine (jGetD j "dashboard" (J.jobj [])) label key suffix ⟨o, k, tr, out⟩ =
      (Except.ok (), ⟨o, k, tr, out ++ [OutLine.rawL (label ++
        jStr (jGetD (jGetD j "dashboard" (J.jobj [])) key (J.jstr "N/A")) ++ suffix)]⟩) := by
  obtain ⟨fs, rfl⟩ := WTJ_isObj j h
  obtain ⟨g, hg⟩ := objField_getD fs "dashboard" (WTJ_parts fs h).2.2.2.1
  rw [hg, dashLine_spec]

theorem WT_respOf (o : Nat → Resp) (k : Nat) (h : WTResp (o k) = true) :
    WTJ (respOf o k) = true := WT_respJ _ h

theorem tail_spec (tk : String) (o : Nat → Resp)
    (hWT : ∀ j, WTResp (o j) = true) (k : Nat) (tr : List Request)
    (out : List OutLine) :
    (do
      let dtr ← api "GET" "/api/v1/downtime" none (some tk)
      let lgs ← liftE (pyGet dtr "logs" (J.jarr []))
      let n2 ← liftE (pyLen lgs)
      emit (OutLine.okL ("Downtime logs: " ++ toString n2 ++ " entries"))
      let ur ← api "GET" "/api/v1/auth/users" none (some tk)
      let us ← liftE (pyGet ur "users" (J.jarr []))
      let n3 ← liftE (pyLen us)
      emit (OutLine.okL ("Users: " ++ toString n3 ++ " total"))
      emit (OutLine.headerL "11. FEATURE FLAGS")
      let fr ← api "GET" "/api/v1/admin/features" none (some tk)
      let feats ← liftE (pyGet fr "features" (J.jarr []))
      featsLoop feats
      emit (OutLine.rawL "SEED DATA COMPLETE – FactoryOS is ready!")
      emit (OutLine.rawL "Login: http://localhost:8081")
      emit (OutLine.rawL "Credentials: admin / admin123")
      emit (OutLine.rawL "API: http://localhost:4000/api/v1/...") : M Unit)
      ⟨o, k, tr, out⟩ =
    (Except.ok (), ⟨o, k + 3,
      tr ++ [⟨"GET", "/api/v1/downtime", none, some tk⟩,
        ⟨"GET", "/api/v1/auth/users", none, some tk⟩,
        ⟨"GET", "/api/v1/admin/features", none, some tk⟩],
      out ++ [OutLine.okL ("Downtime logs: " ++
          toString (jLenSpec (jGetD (respOf o k) "logs" (J.jarr []))) ++ " entries"),
        OutLine.okL ("Users: " ++
          toString (jLenSpec (jGetD (respOf o (k + 1)) "users" (J.jarr []))) ++ " total"),
        OutLine.headerL "11. FEATURE FLAGS"] ++
      featsOutSpec (arrOf (jGetD (respOf o (k + 2)) "features" (J.jarr []))) ++
      [OutLine.rawL "SEED DATA COMPLETE – FactoryOS is ready!",
       OutLine.rawL "Login: http://localhost:8081",
       OutLine.rawL "Credentials: admin / admin123",
       OutLine.rawL "API: http://localhost:4000/api/v1/..."]⟩) := by
  rw [bind_ok_step _ _ _ _ _ (api_wt _ _ _ _ _ _ _ _ (hWT k))]
  try simp only []
  rw [bind_ok_step _ _ _ _ _ (by
    rw [liftE_def, pyGet_wt _ (WT_respOf o k (hWT k))])]
  try simp only []
  rw [bind_ok_step _ _ _ _ _ (by
    rw [liftE_def, pyLen_arrField _ _ (jGetD_logs_arr _ (WT_respOf o k (hWT k)))])]
  try simp only []
  rw [bind_ok_step _ _ _ _ _ (emit_def _ _ _ _ _)]
  try simp only []
  rw [bind_ok_step _ _ _ _ _ (api_wt _ _ _ _ _ _ _ _ (hWT (k + 1)))]
  try simp only []
  rw [bind_ok_step _ _ _ _ _ (by
    rw [liftE_def, pyGet_wt _ (WT_respOf o (k + 1) (hWT (k + 1)))])]
  try simp only []
  rw [bind_ok_step _ _ _ _ _ (by
    rw [liftE_def, pyLen_arrField _ _ (jGetD_users_arr _ (WT_respOf o (k + 1) (hWT (k + 1))))])]
  try simp only []
  rw [bind_ok_step _ _ _ _ _ (emit_def _ _ _ _ _)]
  try simp only []
  rw [bind_ok_step _ _ _ _ _ (emit_def _ _ _ _ _)]
  try simp only []
  rw [bind_ok_step _ _ _ _ _ (api_wt _ _ _ _ _ _ _ _ (hWT (k + 1 + 1)))]
  try simp only []
  rw [bind_ok_step _ _ _ _ _ (by
    rw [liftE_def, pyGet_wt _ (WT_respOf o (k + 1 + 1) (hWT (k + 1 + 1)))])]
  try simp only []
  rw [bind_ok_step _ _ _ _ _
    (featsLoop_field _ (WT_respOf o (k + 1 + 1) (hWT (k + 1 + 1))) _ _ _ _)]
  try simp only []
  rw [bind_ok_step _ _ _ _ _ (emit_def _ _ _ _ _)]
  try simp only []
  rw [bind_ok_step _ _ _ _ _ (emit_def _ _ _ _ _)]
  try simp only []
  rw [bind_ok_step _ _ _ _ _ (emit_def _ _ _ _ _)]
  try simp only []
  rw [emit_def]
  simp [List.append_assoc]

theorem report_tail_spec (tk : String) (o : Nat → Resp)
    (hWT : ∀ j, WTResp (o j) = true) (kR k : Nat) (tr : List Request)
    (out : List OutLine) :
    (do
      let s1 ← liftE (pyGet (respOf o kR) "success" J.null)
      let cond ←
        if s1.truthy then pure true
        else do
          let r ← liftE (pyGet (respOf o kR) "report" J.null)
          pure r.truthy
      if cond then do
        let rep ← liftE (pyGet (respOf o kR) "report" (J.jarr []))
        let n ← liftE (pyLen rep)
        emit (OutLine.okL ("Daily report: " ++ toString n ++ " entries"))
      else do
        let e ← liftE (pyGet (respOf o kR) "error" (J.jstr "N/A"))
        emit (OutLine.failL ("Daily report: " ++ jStr e))
      let dtr ← api "GET" "/api/v1/downtime" none (some tk)
      let lgs ← liftE (pyGet dtr "logs" (J.jarr []))
      let n2 ← liftE (pyLen lgs)
      emit (OutLine.okL ("Downtime logs: " ++ toString n2 ++ " entries"))
      let ur ← api "GET" "/api/v1/auth/users" none (some tk)
      let us ← liftE (pyGet ur "users" (J.jarr []))
      let n3 ← liftE (pyLen us)
      emit (OutLine.okL ("Users: " ++ toString n3 ++ " total"))
      emit (OutLine.headerL "11. FEATURE FLAGS")
      let fr ← api "GET" "/api/v1/admin/features" none (some tk)
      let feats ← liftE (pyGet fr "features" (J.jarr []))
      featsLoop feats
      emit (OutLine.rawL "SEED DATA COMPLETE – FactoryOS is ready!")
      emit (OutLine.rawL "Login: http://localhost:8081")
      emit (OutLine.rawL "Credentials: admin / admin123")
      emit (OutLine.rawL "API: http://localhost:4000/api/v1/...") : M Unit)
      ⟨o, k, tr, out⟩ =
    (Except.ok (), ⟨o, k + 3,
      tr ++ [⟨"GET", "/api/v1/downtime", none, some tk⟩,
        ⟨"GET", "/api/v1/auth/users", none, some tk⟩,
        ⟨"GET", "/api/v1/admin/features", none, some tk⟩],
      out ++ [reportLineSpec (respOf o kR),
        OutLine.okL ("Downtime logs: " ++
          toString (jLenSpec (jGetD (respOf o k) "logs" (J.jarr []))) ++ " entries"),
        OutLine.okL ("Users: " ++
          toString (jLenSpec (jGetD (respOf o (k + 1)) "users" (J.jarr []))) ++ " total"),
        OutLine.headerL "11. FEATURE FLAGS"] ++
      featsOutSpec (arrOf (jGetD (respOf o (k + 2)) "features" (J.jarr []))) ++
      [OutLine.rawL "SEED DATA COMPLETE – FactoryOS is ready!",
       OutLine.rawL "Login: http://localhost:8081",
       OutLine.rawL "Credentials: admin / admin123",
       OutLine.rawL "API: http://localhost:4000/api/v1/..."]⟩) := by
  have hwtR : WTJ (respOf o kR) = true := WT_respOf o kR (hWT kR)
  rw [bind_ok_step _ _ _ _ _ (by rw [liftE_def, pyGet_wt _ hwtR])]
  try simp only []
  rcases hs1 : (jGetD (respOf o kR) "success" J.null).truthy with _ | _
  · rw [if_neg (by simp [hs1])]
    rw [bind_ok_step _ _ _ _ _ (by rw [liftE_def, pyGet_wt _ hwtR])]
    try simp only []
    rw [bind_ok_step _ _ _ _ _ (pureM_def _ _)]
    try simp only []
    rcases hr : (jGetD (respOf o kR) "report" J.null).truthy with _ | _
    · rw [if_neg (by simp [hr])]
      rw [bind_ok_step _ _ _ _ _ (by rw [liftE_def, pyGet_wt _ hwtR])]
      try simp only []
      rw [bind_ok_step _ _ _ _ _ (emit_def _ _ _ _ _)]
      try simp only []
      rw [tail_spec tk o hWT]
      simp [reportLineSpec, hs1, hr, List.append_assoc]
    · rw [if_pos (by simp [hr])]
      rw [bind_ok_step _ _ _ _ _ (by rw [liftE_def, pyGet_wt _ hwtR])]
      try simp only []
      rw [bind_ok_step _ _ _ _ _ (by
        rw [liftE_def, pyLen_arrField _ _ (jGetD_report_arr _ hwtR)])]
      try simp only []
      rw [bind_ok_step _ _ _ _ _ (emit_def _ _ _ _ _)]
      try simp only []
      rw [tail_spec tk o hWT]
      simp [reportLineSpec, hs1, hr, List.append_assoc]
  · rw [if_pos (by simp [hs1])]
    rw [bind_ok_step _ _ _ _ _ (pureM_def _ _)]
    try simp only []
    rw [if_pos True.intro]
    rw [bind_ok_step _ _ _ _ _ (by rw [liftE_def, pyGet_wt _ hwtR])]
    try simp only []
    rw [bind_ok_step _ _ _ _ _ (by
      rw [liftE_def, pyLen_arrField _ _ (jGetD_report_arr _ hwtR)])]
    try simp only []
    rw [bind_ok_step _ _ _ _ _ (emit_def _ _ _ _ _)]
    try simp only []
    rw [tail_spec tk o hWT]
    simp [reportLineSpec, hs1, List.append_assoc]

set_option maxHeartbeats 4000000 in
theorem theScript_completes (o : Nat → Resp) (nowD : Date) (nowSec : Nat)
    (hWT : ∀ k, WTResp (o k) = true)
    (hH : healthOkB (o 0) = true) (hL : loginOkB (o 1) = true) :
    theScript nowD nowSec ⟨o, 0, [], []⟩ =
      (Except.ok (), ⟨o, 71 + patchCountSpec o, fullTraceSpec o nowD nowSec,
        fullOutSpec o nowD nowSec⟩) := by
  obtain ⟨g0, hg0, hs0⟩ := healthOk_cases o (hWT 0) hH
  obtain ⟨fs1, s, hg1, htok, hsne⟩ := loginOk_cases o hL
  have htokd : jGetD (J.jobj fs1) "token" J.null = J.jstr s := by
    simp [jGetD, htok]
  have htokeq : tokStrSpec o = s := by
    rw [tokStrSpec, hg1, htokd, jStr_jstr]
  rw [theScript]
  rw [bind_ok_step _ _ _ _ _ (emit_def _ _ _ _ _)]
  try simp only []
  rw [bind_ok_step _ _ _ _ _ (tryCrash_ok _ _ _ _ _ (by
    rw [bind_ok_step _ _ _ _ _ (api_wt _ _ _ _ _ _ _ _ (hWT 0))]
    try simp only []
    rw [hg0]
    rw [bind_ok_step _ _ _ _ _ (by rw [liftE_def, pyGet_obj])]
    try simp only []
    rw [if_pos hs0]
    rw [bind_ok_step _ _ _ _ _ (by rw [liftE_def, pyGet_obj])]
    try simp only []
    rw [emit_def]))]
  try simp only []
  rw [bind_ok_step _ _ _ _ _ (emit_def _ _ _ _ _)]
  try simp only []
  rw [bind_ok_step _ _ _ _ _ (api_wt _ _ _ _ _ _ _ _ (hWT 1))]
  try simp only []
  rw [hg1]
  rw [bind_ok_step _ _ _ _ _ (by rw [liftE_def, pyGet_obj])]
  try simp only []
  rw [htokd]
  rw [if_pos (show (J.jstr s).truthy = true by simpa [J.truthy] using hsne)]
  rw [bind_ok_step _ _ _ _ _ (pureM_def _ _)]
  try simp only []
  rw [bind_ok_step _ _ _ _ _ (by
    rw [liftE_def, show pyIndex (J.jobj fs1) "token" = Except.ok (J.jstr s) from
      by simp [pyIndex, htok]])]
  try simp only []
  rw [bind_ok_step _ _ _ _ _ (by rw [liftE_def, pyLen_str])]
  try simp only []
  rw [jStr_jstr]
  rw [bind_ok_step _ _ _ _ _ (emit_def _ _ _ _ _)]
  try simp only []
  rw [bind_ok_step _ _ _ _ _ (emit_def _ _ _ _ _)]
  try simp only []
  rw [bind_ok_step _ _ _ _ _ (usersLoop_spec s o hWT userRecs 2 _ _)]
  try simp only []
  rw [show (2 : Nat) + userRecs.length = 10 from rfl]
  rw [bind_ok_step _ _ _ _ _ (emit_def _ _ _ _ _)]
  try simp only []
  rw [bind_ok_step _ _ _ _ _ (machinesLoop_spec s o hWT machineRecs 10 _ _)]
  try simp only []
  rw [show (10 : Nat) + machineRecs.length = 18 from rfl]
  rw [bind_ok_step _ _ _ _ _ (emit_def _ _ _ _ _)]
  try simp only []
  rw [bind_ok_step _ _ _ _ _ (api_wt _ _ _ _ _ _ _ _ (hWT 18))]
  try simp only []
  rw [bind_ok_step _ _ _ _ _ (by
    rw [liftE_def, pyGet_wt _ (WT_respOf o 18 (hWT 18))])]
  try simp only []
  rw [bind_ok_step _ _ _ _ _ (by
    rw [liftE_def, shiftNames_field _ (WT_respOf o 18 (hWT 18))])]
  try simp only []
  rw [bind_ok_step _ _ _ _ _ (by
    rw [liftE_def, pyLen_arrField _ _ (by
      obtain ⟨xs, hxs, _⟩ := jGetD_shifts_arr _ (WT_respOf o 18 (hWT 18))
      exact ⟨xs, hxs⟩)])]
  try simp only []
  rw [bind_ok_step _ _ _ _ _ (emit_def _ _ _ _ _)]
  try simp only []
  rw [bind_ok_step _ _ _ _ _ (emit_def _ _ _ _ _)]
  try simp only []
  rw [bind_ok_step _ _ _ _ _ (api_wt _ _ _ _ _ _ _ _ (hWT 19))]
  try simp only []
  rw [bind_ok_step _ _ _ _ _ (by
    rw [liftE_def, pyGet_wt _ (WT_respOf o 19 (hWT 19))])]
  try simp only []
  rw [bind_ok_step _ _ _ _ _ (by
    rw [liftE_def, buildMachineMap_field _ (WT_respOf o 19 (hWT 19))])]
  try simp only []
  rw [bind_ok_step _ _ _ _ _
    (plansLoop_spec s _ _ o hWT planRecs 0 [] 20 _ _)]
  try simp only []
  rw [show (20 : Nat) + planRecs.length = 34 from rfl]
  rw [bind_ok_step _ _ _ _ _ (emit_def _ _ _ _ _)]
  try simp only []
  rw [bind_ok_step _ _ _ _ _ (patchLoop_spec s _ _ o hWT _ 34 _ _)]
  try simp only []
  rw [bind_ok_step _ _ _ _ _ (emit_def _ _ _ _ _)]
  try simp only []
  rw [bind_ok_step _ _ _ _ _ (patchLoop_spec s _ _ o hWT _ _ _ _)]
  try simp only []
  rw [bind_ok_step _ _ _ _ _ (emit_def _ _ _ _ _)]
  try simp only []
  rw [bind_ok_step _ _ _ _ _ (emit_def _ _ _ _ _)]
  try simp only []
  rw [bind_ok_step _ _ _ _ _ (logsLoop_spec s _ _ o hWT logRecs 0 0 _ _ _)]
  try simp only []
  rw [show List.length logRecs = 28 from rfl]
  rw [bind_ok_step _ _ _ _ _ (emit_def _ _ _ _ _)]
  try simp only []
  rw [bind_ok_step _ _ _ _ _ (emit_def _ _ _ _ _)]
  try simp only []
  rw [bind_ok_step _ _ _ _ _ (downLoop_spec s _ _ o hWT downRecs _ _ _)]
  try simp only []
  rw [show List.length downRecs = 4 from rfl]
  rw [bind_ok_step _ _ _ _ _ (emit_def _ _ _ _ _)]
  try simp only []
  rw [bind_ok_step _ _ _ _ _ (api_wt _ _ _ _ _ _ _ _ (hWT _))]
  try simp only []
  rw [bind_ok_step _ _ _ _ _ (by
    rw [liftE_def, pyGet_wt _ (WT_respOf o _ (hWT _))])]
  try simp only []
  rw [bind_ok_step _ _ _ _ _ (dashLine_wt _ (WT_respOf o _ (hWT _)) _ _ _ _ _ _ _)]
  try simp only []
  rw [bind_ok_step _ _ _ _ _ (dashLine_wt _ (WT_respOf o _ (hWT _)) _ _ _ _ _ _ _)]
  try simp only []
  rw [bind_ok_step _ _ _ _ _ (dashLine_wt _ (WT_respOf o _ (hWT _)) _ _ _ _ _ _ _)]
  try simp only []
  rw [bind_ok_step _ _ _ _ _ (dashLine_wt _ (WT_respOf o _ (hWT _)) _ _ _ _ _ _ _)]
  try simp only []
  rw [bind_ok_step _ _ _ _ _ (dashLine_wt _ (WT_respOf o _ (hWT _)) _ _ _ _ _ _ _)]
  try simp only []
  rw [bind_ok_step _ _ _ _ _ (dashLine_wt _ (WT_respOf o _ (hWT _)) _ _ _ _ _ _ _)]
  try simp only []
  rw [bind_ok_step _ _ _ _ _ (dashLine_wt _ (WT_respOf o _ (hWT _)) _ _ _ _ _ _ _)]
  try simp only []
  rw [bind_ok_step _ _ _ _ _ (dashLine_wt _ (WT_respOf o _ (hWT _)) _ _ _ _ _ _ _)]
  try simp only []
  rw [bind_ok_step _ _ _ _ _ (dashLine_wt _ (WT_respOf o _ (hWT _)) _ _ _ _ _ _ _)]
  try simp only []
  rw [bind_ok_step _ _ _ _ _ (dashLine_wt _ (WT_respOf o _ (hWT _)) _ _ _ _ _ _ _)]
  try simp only []
  rw [bind_ok_step _ _ _ _ _ (emit_def _ _ _ _ _)]
  try simp only []
  rw [bind_ok_step _ _ _ _ _ (api_wt _ _ _ _ _ _ _ _ (hWT _))]
  try simp only []
  rw [report_tail_spec s o hWT]
  simp [fullTraceSpec, fullOutSpec, patchCountSpec, htokeq, hg0, hg1, htokd,
    jLenSpec, dashOutSpec,
    List.append_assoc, Nat.add_assoc, Nat.add_comm, Nat.add_left_comm]
  generalize (patchTraceSpec s (planIdsSpec o 20 0 planRecs []) "IN_PROGRESS"
    [0, 1, 2, 3, 4, 5, 6]).length = a
  generalize (patchTraceSpec s (planIdsSpec o 20 0 planRecs []) "COMPLETED"
    [9, 10, 11, 12, 13]).length = b
  have e1 : 1 + (1 + (4 + (b + (a + 62)))) = 2 + (4 + (b + (a + 62))) := by omega
  have e2 : 1 + (1 + (1 + (4 + (b + (a + 62))))) = 3 + (4 + (b + (a + 62))) := by
    omega
  have e3 : 1 + (1 + (2 + (4 + (b + (a + 62))))) = 4 + (4 + (b + (a + 62))) := by
    omega
  rw [e2, e3, e1]
  repeat' constructor
  all_goals omega

theorem mHalt_def {α : Type} (h : Halt) (st : RunSt) :
    (mHalt h : M α) st = (Except.error h, st) := rfl

theorem bind_err_step {α β : Type} (x : M α) (f : α → M β) (st st2 : RunSt)
    (h : Halt) (hx : x st = (Except.error h, st2)) :
    (x >>= f) st = (Except.error h, st2) := by
  rw [bindM_def, hx]

theorem api_net (m p : String) (b : Option J) (t : Option String)
    (o : Nat → Resp) (k : Nat) (tr : List Request) (out : List OutLine)
    (h : o k = Resp.netError) :
    api m p b t ⟨o, k, tr, out⟩ =
      (Except.error Halt.crashed, ⟨o, k + 1, tr ++ [⟨m, p, b, t⟩], out⟩) := by
  simp [api, h]

theorem tryCrash_crash {α : Type} (x handler : M α) (st st2 : RunSt)
    (r : Except Halt α × RunSt) (hx : x st = (Except.error Halt.crashed, st2))
    (hh : handler st2 = r) : tryCrash x handler st = r := by
  unfold tryCrash
  rw [hx]
  exact hh

theorem tryCrash_exit {α : Type} (x handler : M α) (st st2 : RunSt) (c : Nat)
    (hx : x st = (Except.error (Halt.exited c), st2)) :
    tryCrash x handler st = (Except.error (Halt.exited c), st2) := by
  unfold tryCrash
  rw [hx]

theorem healthBad_val (o : Nat → Resp) (hW0 : WTResp (o 0) = true)
    (hH : healthOkB (o 0) = false) :
    (jGetD (respOf o 0) "success" J.null).truthy = false := by
  rcases ho : o 0 with j | ⟨c, b⟩ | _ | _ <;> rw [ho] at hW0 hH
  · simpa [respOf, ho, respJ, healthOkB] using hH
  · simp [respOf, ho, respJ, httpErrObj, jGetD, List.lookup, J.truthy]
  · simp [WTResp] at hW0
  · simp [WTResp] at hW0

theorem loginNoTok_val (o : Nat → Resp) (hW1 : WTResp (o 1) = true)
    (hnt : loginNoTokenB (o 1) = true) :
    (jGetD (respOf o 1) "token" J.null).truthy = false := by
  rcases ho : o 1 with j | ⟨c, b⟩ | _ | _ <;> rw [ho] at hW1 hnt
  · simpa [respOf, ho, respJ, loginNoTokenB] using hnt
  · simp [respOf, ho, respJ, httpErrObj, jGetD, List.lookup, J.truthy]
  · simp [WTResp] at hW1
  · simp [WTResp] at hW1

theorem runScript_completes (o : Nat → Resp) (nowD : Date) (nowSec : Nat)
    (hWT : ∀ k, WTResp (o k) = true)
    (hH : healthOkB (o 0) = true) (hL : loginOkB (o 1) = true) :
    runScript o nowD nowSec =
      ⟨fullTraceSpec o nowD nowSec, fullOutSpec o nowD nowSec,
        ExitKind.completed⟩ := by
  rw [runScript, theScript_completes o nowD nowSec hWT hH hL]

theorem theScript_healthNet (o : Nat → Resp) (nowD : Date) (nowSec : Nat)
    (h0 : o 0 = Resp.netError) :
    theScript nowD nowSec ⟨o, 0, [], []⟩ =
      (Except.error (Halt.exited 1),
        ⟨o, 1, [⟨"GET", "/api/health", none, none⟩],
          [OutLine.headerL "0. HEALTH CHECK",
           OutLine.failL "Cannot reach API on http://localhost:4000"]⟩) := by
  rw [theScript]
  rw [bind_ok_step _ _ _ _ _ (emit_def _ _ _ _ _)]
  try simp only []
  rw [bind_err_step _ _ _ _ _ (tryCrash_crash _ _ _ _ _
    (bind_err_step _ _ _ _ _ (api_net _ _ _ _ _ _ _ _ h0))
    (by
      rw [bind_ok_step _ _ _ _ _ (emit_def _ _ _ _ _)]
      try simp only []
      rw [mHalt_def]))]
  simp

theorem runScript_healthNet (o : Nat → Resp) (nowD : Date) (nowSec : Nat)
    (h0 : o 0 = Resp.netError) :
    runScript o nowD nowSec =
      ⟨[⟨"GET", "/api/health", none, none⟩],
       [OutLine.headerL "0. HEALTH CHECK",
        OutLine.failL "Cannot reach API on http://localhost:4000"],
       ExitKind.exited 1⟩ := by
  rw [runScript, theScript_healthNet o nowD nowSec h0]

theorem theScript_unhealthy (o : Nat → Resp) (nowD : Date) (nowSec : Nat)
    (hW0 : WTResp (o 0) = true) (hH : healthOkB (o 0) = false) :
    theScript nowD nowSec ⟨o, 0, [], []⟩ =
      (Except.error (Halt.exited 1),
        ⟨o, 1, [⟨"GET", "/api/health", none, none⟩],
          [OutLine.headerL "0. HEALTH CHECK",
           OutLine.failL "API health check failed"]⟩) := by
  rw [theScript]
  rw [bind_ok_step _ _ _ _ _ (emit_def _ _ _ _ _)]
  try simp only []
  rw [bind_err_step _ _ _ _ _ (tryCrash_exit _ _ _ _ _ (by
    rw [bind_ok_step _ _ _ _ _ (api_wt _ _ _ _ _ _ _ _ hW0)]
    try simp only []
    rw [bind_ok_step _ _ _ _ _ (by
      rw [liftE_def, pyGet_wt _ (WT_respOf o 0 hW0)])]
    try simp only []
    rw [if_neg (by simp [healthBad_val o hW0 hH])]
    rw [bind_ok_step _ _ _ _ _ (emit_def _ _ _ _ _)]
    try simp only []
    rw [mHalt_def]))]
  simp

theorem runScript_unhealthy (o : Nat → Resp) (nowD : Date) (nowSec : Nat)
    (hW0 : WTResp (o 0) = true) (hH : healthOkB (o 0) = false) :
    runScript o nowD nowSec =
      ⟨[⟨"GET", "/api/health", none, none⟩],
       [OutLine.headerL "0. HEALTH CHECK",
        OutLine.failL "API health check failed"],
       ExitKind.exited 1⟩ := by
  rw [runScript, theScript_unhealthy o nowD nowSec hW0 hH]

theorem theScript_loginNoTok (o : Nat → Resp) (nowD : Date) (nowSec : Nat)
    (hW0 : WTResp (o 0) = true) (hW1 : WTResp (o 1) = true)
    (hH : healthOkB (o 0) = true) (hnt : loginNoTokenB (o 1) = true) :
    theScript nowD nowSec ⟨o, 0, [], []⟩ =
      (Except.error (Halt.exited 1),
        ⟨o, 2,
         [⟨"GET", "/api/health", none, none⟩,
          ⟨"POST", "/api/v1/auth/login",
            some (J.jobj [("username", J.jstr "admin"),
                          ("password", J.jstr "admin123")]), none⟩],
         [OutLine.headerL "0. HEALTH CHECK",
          OutLine.okL ("API is healthy – " ++
            jStr (jGetD (respOf o 0) "service" (J.jstr "unknown"))),
          OutLine.headerL "1. LOGIN AS ADMIN",
          OutLine.failL ("Login failed: " ++ jStr (respOf o 1))]⟩) := by
  obtain ⟨g0, hg0, hs0⟩ := healthOk_cases o hW0 hH
  rw [theScript]
  rw [bind_ok_step _ _ _ _ _ (emit_def _ _ _ _ _)]
  try simp only []
  rw [bind_ok_step _ _ _ _ _ (tryCrash_ok _ _ _ _ _ (by
    rw [bind_ok_step _ _ _ _ _ (api_wt _ _ _ _ _ _ _ _ hW0)]
    try simp only []
    rw [hg0]
    rw [bind_ok_step _ _ _ _ _ (by rw [liftE_def, pyGet_obj])]
    try simp only []
    rw [if_pos hs0]
    rw [bind_ok_step _ _ _ _ _ (by rw [liftE_def, pyGet_obj])]
    try simp only []
    rw [emit_def]))]
  try simp only []
  rw [bind_ok_step _ _ _ _ _ (emit_def _ _ _ _ _)]
  try simp only []
  rw [bind_ok_step _ _ _ _ _ (api_wt _ _ _ _ _ _ _ _ hW1)]
  try simp only []
  rw [bind_ok_step _ _ _ _ _ (by
    rw [liftE_def, pyGet_wt _ (WT_respOf o 1 hW1)])]
  try simp only []
  rw [if_neg (by simp [loginNoTok_val o hW1 hnt])]
  rw [bind_ok_step _ _ _ _ _ (emit_def _ _ _ _ _)]
  try simp only []
  rw [bind_err_step _ _ _ _ _ (mHalt_def _ _)]
  simp [hg0]

theorem runScript_loginNoTok (o : Nat → Resp) (nowD : Date) (nowSec : Nat)
    (hW0 : WTResp (o 0) = true) (hW1 : WTResp (o 1) = true)
    (hH : healthOkB (o 0) = true) (hnt : loginNoTokenB (o 1) = true) :
    runScript o nowD nowSec =
      ⟨[⟨"GET", "/api/health", none, none⟩,
        ⟨"POST", "/api/v1/auth/login",
          some (J.jobj [("username", J.jstr "admin"),
                        ("password", J.jstr "admin123")]), none⟩],
       [OutLine.headerL "0. HEALTH CHECK",
        OutLine.okL ("API is healthy – " ++
          jStr (jGetD (respOf o 0) "service" (J.jstr "unknown"))),
        OutLine.headerL "1. LOGIN AS ADMIN",
        OutLine.failL ("Login failed: " ++ jStr (respOf o 1))],
       ExitKind.exited 1⟩ := by
  rw [runScript, theScript_loginNoTok o nowD nowSec hW0 hW1 hH hnt]

theorem WT_oracleAllOk : ∀ k, WTResp (oracleAllOk k) = true := fun _ => rfl

theorem WT_oracleTwoDup : ∀ k, WTResp (oracleTwoDup k) = true := fun k => by
  simp only [oracleTwoDup]
  split <;> decide

theorem WT_oracleLoginFail : ∀ k, WTResp (oracleLoginFail k) = true := fun k => by
  simp only [oracleLoginFail]
  split <;> decide

theorem WT_oraclePlanFail : ∀ k, WTResp (oraclePlanFail k) = true := fun k => by
  simp only [oraclePlanFail]
  split <;> decide

theorem WT_oracleListFail : ∀ k, WTResp (oracleListFail k) = true := fun k => by
  simp only [oracleListFail]
  split <;> decide

theorem isOkL_userLine (u : UserRec) (r : J) :
    isOkL (userLineSpec u r) = userCondB r := by
  rcases h : userCondB r with _ | _ <;> simp [userLineSpec, h, isOkL]

theorem isFailL_userLine (u : UserRec) (r : J) :
    isFailL (userLineSpec u r) = !userCondB r := by
  rcases h : userCondB r with _ | _ <;> simp [userLineSpec, h, isFailL]

theorem isOkL_machineLine (m : MachineRec) (r : J) :
    isOkL (machineLineSpec m r) = machineCondB r := by
  rcases h : machineCondB r with _ | _ <;> simp [machineLineSpec, h, isOkL]

theorem isFailL_machineLine (m : MachineRec) (r : J) :
    isFailL (machineLineSpec m r) = !machineCondB r := by
  rcases h : machineCondB r with _ | _ <;> simp [machineLineSpec, h, isFailL]

theorem logsCountsSpec_sum (o : Nat → Resp) : ∀ (lgs : List LogRec) (k sc fc : Nat),
    (logsCountsSpec o k lgs (sc, fc)).1 + (logsCountsSpec o k lgs (sc, fc)).2 =
      sc + fc + lgs.length := by
  intro lgs
  induction lgs with
  | nil => intro k sc fc; simp [logsCountsSpec]
  | cons lg rest ih =>
      intro k sc fc
      simp only [logsCountsSpec]
      split
      · have := ih (k + 1) (sc + 1) fc
        simp only [List.length_cons]
        omega
      · have := ih (k + 1) sc (fc + 1)
        simp only [List.length_cons]
        omega

theorem strTake_len (s : String) (n : Nat) : (strTake s n).length ≤ n := by
  show (s.data.take n).length ≤ n
  rw [List.length_take]
  omega

theorem patchTraceSpec_filter (tok : String) (pids : List (Nat × J))
    (status : String) : ∀ idxs,
    (patchTraceSpec tok pids status idxs).filter (fun r => r.method == "PATCH") =
      patchTraceSpec tok pids status idxs := by
  intro idxs
  induction idxs with
  | nil => rfl
  | cons i rest ih =>
      rw [patchTraceSpec]
      rcases List.lookup i pids with _ | pid
      all_goals try simp only []
      · exact ih
      · rcases h : pid.truthy with _ | _
        · rw [if_neg (by simp [h])]
          exact ih
        · rw [if_pos (by simp [h]), List.filter_cons, if_pos (by simp), ih]

theorem patchTraceSpec_filter_plans (tok : String) (pids : List (Nat × J))
    (status : String) : ∀ idxs,
    (patchTraceSpec tok pids status idxs).filter
      (fun r => r.method == "POST" && r.path == "/api/v1/plans") = [] := by
  intro idxs
  induction idxs with
  | nil => rfl
  | cons i rest ih =>
      rw [patchTraceSpec]
      rcases List.lookup i pids with _ | pid
      all_goals try simp only []
      · exact ih
      · rcases h : pid.truthy with _ | _
        · rw [if_neg (by simp [h])]
          exact ih
        · rw [if_pos (by simp [h]), List.filter_cons, if_neg (by simp), ih]

/-- C2: for every user-creation and every machine-creation response, the
run prints the ok line exactly when the response reports success or
carries an "already exists" style error, prints a failure line otherwise,
and in both cases continues to the next item (the loops return normally,
one console line and one request per item). -/
theorem claim_C2 (tok : String) (o : Nat → Resp) (hWT : ∀ j, WTResp (o j) = true)
    (k : Nat) (tr : List Request) (out : List OutLine) :
    usersLoop tok userRecs ⟨o, k, tr, out⟩ =
      (Except.ok (), ⟨o, k + 8, tr ++ usersTraceSpec tok userRecs,
        out ++ usersOutSpec o k userRecs⟩) ∧
    machinesLoop tok machineRecs ⟨o, k, tr, out⟩ =
      (Except.ok (), ⟨o, k + 8, tr ++ machinesTraceSpec tok machineRecs,
        out ++ machinesOutSpec o k machineRecs⟩) ∧
    (∀ u r, isOkL (userLineSpec u r) = userCondB r ∧
      isFailL (userLineSpec u r) = !userCondB r) ∧
    (∀ m r, isOkL (machineLineSpec m r) = machineCondB r ∧
      isFailL (machineLineSpec m r) = !machineCondB r) := by
  refine ⟨?_, ?_, ?_, ?_⟩
  · have h := usersLoop_spec tok o hWT userRecs k tr out
    rw [show List.length userRecs = 8 from rfl] at h
    exact h
  · have h := machinesLoop_spec tok o hWT machineRecs k tr out
    rw [show List.length machineRecs = 8 from rfl] at h
    exact h
  · exact fun u r => ⟨isOkL_userLine u r, isFailL_userLine u r⟩
  · exact fun m r => ⟨isOkL_machineLine m r, isFailL_machineLine m r⟩

theorem claim_C2_witness :
    (∀ j, WTResp (oracleTwoDup j) = true) ∧
    (usersLoop "tok123" userRecs ⟨oracleTwoDup, 2, [], []⟩ =
      (Except.ok (), ⟨oracleTwoDup, 2 + 8, [] ++ usersTraceSpec "tok123" userRecs,
        [] ++ usersOutSpec oracleTwoDup 2 userRecs⟩) ∧
     machinesLoop "tok123" machineRecs ⟨oracleTwoDup, 2, [], []⟩ =
      (Except.ok (), ⟨oracleTwoDup, 2 + 8, [] ++ machinesTraceSpec "tok123" machineRecs,
        [] ++ machinesOutSpec oracleTwoDup 2 machineRecs⟩) ∧
     (∀ u r, isOkL (userLineSpec u r) = userCondB r ∧
       isFailL (userLineSpec u r) = !userCondB r) ∧
     (∀ m r, isOkL (machineLineSpec m r) = machineCondB r ∧
       isFailL (machineLineSpec m r) = !machineCondB r)) :=
  ⟨WT_oracleTwoDup, claim_C2 "tok123" oracleTwoDup WT_oracleTwoDup 2 [] []⟩

/-- C8: each production-log outcome increments exactly one counter, so
success + failure always equals the number of records processed; for the
28 authored records the printed aggregate satisfies
success_count + fail_count = 28, and that aggregate line appears in the
completed run's output. -/
theorem claim_C8 (o : Nat → Resp) (nowD : Date) (nowSec : Nat)
    (hWT : ∀ j, WTResp (o j) = true)
    (hH : healthOkB (o 0) = true) (hL : loginOkB (o 1) = true) :
    (∀ tok pids mm k sc fc tr out,
      logsLoop tok pids mm logRecs sc fc ⟨o, k, tr, out⟩ =
        (Except.ok (logsCountsSpec o k logRecs (sc, fc)),
          ⟨o, k + 28, tr ++ logsTraceSpec tok pids mm logRecs, out⟩)) ∧
    (∀ lgs kk s f, (logsCountsSpec o kk lgs (s, f)).1 +
        (logsCountsSpec o kk lgs (s, f)).2 = s + f + lgs.length) ∧
    (logsCountsSpec o (34 + patchCountSpec o) logRecs (0, 0)).1 +
        (logsCountsSpec o (34 + patchCountSpec o) logRecs (0, 0)).2 = 28 ∧
    OutLine.okL ("Production logs: " ++
        toString (logsCountsSpec o (34 + patchCountSpec o) logRecs (0, 0)).1 ++
        " created, " ++
        toString (logsCountsSpec o (34 + patchCountSpec o) logRecs (0, 0)).2 ++
        " failed") ∈ (runScript o nowD nowSec).out := by
  refine ⟨?_, fun lgs kk s f => logsCountsSpec_sum o lgs kk s f, ?_, ?_⟩
  · intro tok pids mm k sc fc tr out
    have h := logsLoop_spec tok pids mm o hWT logRecs sc fc k tr out
    rw [show List.length logRecs = 28 from rfl] at h
    exact h
  · rw [logsCountsSpec_sum o logRecs _ 0 0]
    rfl
  · rw [runScript_completes o nowD nowSec hWT hH hL]
    simp [fullOutSpec]

theorem claim_C8_witness :
    (∀ j, WTResp (oracleAllOk j) = true) ∧ healthOkB (oracleAllOk 0) = true ∧
    loginOkB (oracleAllOk 1) = true ∧
    ((∀ tok pids mm k sc fc tr out,
      logsLoop tok pids mm logRecs sc fc ⟨oracleAllOk, k, tr, out⟩ =
        (Except.ok (logsCountsSpec oracleAllOk k logRecs (sc, fc)),
          ⟨oracleAllOk, k + 28, tr ++ logsTraceSpec tok pids mm logRecs, out⟩)) ∧
    (∀ lgs kk s f, (logsCountsSpec oracleAllOk kk lgs (s, f)).1 +
        (logsCountsSpec oracleAllOk kk lgs (s, f)).2 = s + f + lgs.length) ∧
    (logsCountsSpec oracleAllOk (34 + patchCountSpec oracleAllOk) logRecs (0, 0)).1 +
        (logsCountsSpec oracleAllOk (34 + patchCountSpec oracleAllOk) logRecs (0, 0)).2 = 28 ∧
    OutLine.okL ("Production logs: " ++
        toString (logsCountsSpec oracleAllOk
          (34 + patchCountSpec oracleAllOk) logRecs (0, 0)).1 ++
        " created, " ++
        toString (logsCountsSpec oracleAllOk
          (34 + patchCountSpec oracleAllOk) logRecs (0, 0)).2 ++
        " failed") ∈ (runScript oracleAllOk demoDate 0).out) :=
  ⟨WT_oracleAllOk, by decide, by decide,
    claim_C8 oracleAllOk demoDate 0 WT_oracleAllOk (by decide) (by decide)⟩

/-- C9: `api` is total over HTTP error responses — it returns a dict with
success false and an error string "HTTP code: body[:200]" (at most 200
characters of body) instead of raising, and the per-item success checks
evaluate without raising on such a dict. -/
theorem claim_C9 (o : Nat → Resp) (k : Nat) (c : Nat) (b : String)
    (hk : o k = Resp.httpError c b) (m p : String) (bd : Option J)
    (t : Option String) (tr : List Request) (out : List OutLine) :
    api m p bd t ⟨o, k, tr, out⟩ =
      (Except.ok (J.jobj [("success", J.jbool false),
        ("error", J.jstr ("HTTP " ++ toString c ++ ": " ++ strTake b 200))]),
       ⟨o, k + 1, tr ++ [⟨m, p, bd, t⟩], out⟩) ∧
    (strTake b 200).length ≤ 200 ∧
    userOkCond (httpErrObj c b) = Except.ok (userCondB (httpErrObj c b)) ∧
    machineOkCond (httpErrObj c b) = Except.ok (machineCondB (httpErrObj c b)) := by
  refine ⟨?_, strTake_len b 200, ?_, ?_⟩
  · simp [api, hk, httpErrObj]
  · exact userOkCond_wt _ (WT_respJ (Resp.httpError c b) rfl)
  · exact machineOkCond_wt _ (WT_respJ (Resp.httpError c b) rfl)

theorem claim_C9_witness :
    oracleTwoDup 12 = Resp.httpError 409 "Machine already exists" ∧
    (api "POST" "/api/v1/machines" none none ⟨oracleTwoDup, 12, [], []⟩ =
      (Except.ok (J.jobj [("success", J.jbool false),
        ("error", J.jstr ("HTTP " ++ toString 409 ++ ": " ++
          strTake "Machine already exists" 200))]),
       ⟨oracleTwoDup, 12 + 1, [] ++ [⟨"POST", "/api/v1/machines", none, none⟩], []⟩) ∧
     (strTake "Machine already exists" 200).length ≤ 200 ∧
     userOkCond (httpErrObj 409 "Machine already exists") =
       Except.ok (userCondB (httpErrObj 409 "Machine already exists")) ∧
     machineOkCond (httpErrObj 409 "Machine already exists") =
       Except.ok (machineCondB (httpErrObj 409 "Machine already exists"))) :=
  ⟨rfl, claim_C9 oracleTwoDup 12 409 "Machine already exists" rfl
    "POST" "/api/v1/machines" none none [] []⟩

/-- C10: a log record authored against a failed plan index is still sent
(all 28 log requests are issued no matter which plan ids were collected),
with its plan_id field null; a failed response is tallied as an item
failure. -/
theorem claim_C10 (tok : String) (pids : List (Nat × J)) (mm : List (String × J))
    (o : Nat → Resp) (hWT : ∀ j, WTResp (o j) = true)
    (k sc fc : Nat) (tr : List Request) (out : List OutLine) :
    (∀ lg : LogRec, List.lookup lg.planIdx pids = none →
      ∀ dflt, jGetD (mkLogJ pids mm lg) "plan_id" dflt = J.null) ∧
    (logsTraceSpec tok pids mm logRecs).length = 28 ∧
    logsLoop tok pids mm logRecs sc fc ⟨o, k, tr, out⟩ =
      (Except.ok (logsCountsSpec o k logRecs (sc, fc)),
        ⟨o, k + 28, tr ++ logsTraceSpec tok pids mm logRecs, out⟩) ∧
    (∀ (lg : LogRec) (rest : List LogRec) (kk s f : Nat),
      succB (respOf o kk) = false →
      logsCountsSpec o kk (lg :: rest) (s, f) =
        logsCountsSpec o (kk + 1) rest (s, f + 1)) := by
  refine ⟨?_, ?_, ?_, ?_⟩
  · intro lg hnone dflt
    simp [mkLogJ, jGetD, List.lookup, hnone]
  · simp [logsTraceSpec]
    rfl
  · have h := logsLoop_spec tok pids mm o hWT logRecs sc fc k tr out
    rw [show List.length logRecs = 28 from rfl] at h
    exact h
  · intro lg rest kk s f hf
    simp [logsCountsSpec, hf]

theorem claim_C10_witness :
    (∀ j, WTResp (oraclePlanFail j) = true) ∧
    List.lookup 2 (planIdsSpec oraclePlanFail 20 0 planRecs []) = none ∧
    ((∀ lg : LogRec,
      List.lookup lg.planIdx (planIdsSpec oraclePlanFail 20 0 planRecs []) = none →
      ∀ dflt, jGetD (mkLogJ (planIdsSpec oraclePlanFail 20 0 planRecs []) [] lg)
        "plan_id" dflt = J.null) ∧
    (logsTraceSpec "tok123" (planIdsSpec oraclePlanFail 20 0 planRecs []) []
      logRecs).length = 28 ∧
    logsLoop "tok123" (planIdsSpec oraclePlanFail 20 0 planRecs []) [] logRecs 0 0
        ⟨oraclePlanFail, 34, [], []⟩ =
      (Except.ok (logsCountsSpec oraclePlanFail 34 logRecs (0, 0)),
        ⟨oraclePlanFail, 34 + 28,
          [] ++ logsTraceSpec "tok123" (planIdsSpec oraclePlanFail 20 0 planRecs [])
            [] logRecs, []⟩) ∧
    (∀ (lg : LogRec) (rest : List LogRec) (kk s f : Nat),
      succB (respOf oraclePlanFail kk) = false →
      logsCountsSpec oraclePlanFail kk (lg :: rest) (s, f) =
        logsCountsSpec oraclePlanFail (kk + 1) rest (s, f + 1))) :=
  ⟨WT_oraclePlanFail, rfl,
    claim_C10 "tok123" (planIdsSpec oraclePlanFail 20 0 planRecs []) []
      oraclePlanFail WT_oraclePlanFail 34 0 0 [] []⟩

/-- C3: if the login response carries no token, the run exits with status
1 right after the health check and the login request; no other request is
ever issued in that run. -/
theorem claim_C3 (o : Nat → Resp) (nowD : Date) (nowSec : Nat)
    (hW0 : WTResp (o 0) = true) (hW1 : WTResp (o 1) = true)
    (hH : healthOkB (o 0) = true) (hnt : loginNoTokenB (o 1) = true) :
    runScript o nowD nowSec =
      ⟨[⟨"GET", "/api/health", none, none⟩,
        ⟨"POST", "/api/v1/auth/login",
          some (J.jobj [("username", J.jstr "admin"),
                        ("password", J.jstr "admin123")]), none⟩],
       [OutLine.headerL "0. HEALTH CHECK",
        OutLine.okL ("API is healthy – " ++
          jStr (jGetD (respOf o 0) "service" (J.jstr "unknown"))),
        OutLine.headerL "1. LOGIN AS ADMIN",
        OutLine.failL ("Login failed: " ++ jStr (respOf o 1))],
       ExitKind.exited 1⟩ :=
  runScript_loginNoTok o nowD nowSec hW0 hW1 hH hnt

theorem claim_C3_witness :
    WTResp (oracleLoginFail 0) = true ∧ WTResp (oracleLoginFail 1) = true ∧
    healthOkB (oracleLoginFail 0) = true ∧ loginNoTokenB (oracleLoginFail 1) = true ∧
    runScript oracleLoginFail demoDate 0 =
      ⟨[⟨"GET", "/api/health", none, none⟩,
        ⟨"POST", "/api/v1/auth/login",
          some (J.jobj [("username", J.jstr "admin"),
                        ("password", J.jstr "admin123")]), none⟩],
       [OutLine.headerL "0. HEALTH CHECK",
        OutLine.okL ("API is healthy – " ++
          jStr (jGetD (respOf oracleLoginFail 0) "service" (J.jstr "unknown"))),
        OutLine.headerL "1. LOGIN AS ADMIN",
        OutLine.failL ("Login failed: " ++ jStr (respOf oracleLoginFail 1))],
       ExitKind.exited 1⟩ :=
  ⟨by decide, by decide, by decide, by decide,
    claim_C3 oracleLoginFail demoDate 0 (by decide) (by decide) (by decide) (by decide)⟩

/-- C4 (amended): an unreachable or unhealthy service at the health check
and a login without token are fatal (exit status 1); with a well-typed
response to every request the run completes; but a transport error
outside the health check is not recoverable — it crashes the run (see the
counterexample), contrary to the claim. -/
theorem claim_C4 (o : Nat → Resp) (nowD : Date) (nowSec : Nat) :
    (o 0 = Resp.netError →
      runScript o nowD nowSec =
        ⟨[⟨"GET", "/api/health", none, none⟩],
         [OutLine.headerL "0. HEALTH CHECK",
          OutLine.failL "Cannot reach API on http://localhost:4000"],
         ExitKind.exited 1⟩) ∧
    (WTResp (o 0) = true → healthOkB (o 0) = false →
      (runScript o nowD nowSec).exit = ExitKind.exited 1) ∧
    (WTResp (o 0) = true → WTResp (o 1) = true → healthOkB (o 0) = true →
      loginNoTokenB (o 1) = true →
      (runScript o nowD nowSec).exit = ExitKind.exited 1) ∧
    ((∀ k, WTResp (o k) = true) → healthOkB (o 0) = true →
      loginOkB (o 1) = true →
      (runScript o nowD nowSec).exit = ExitKind.completed) := by
  refine ⟨?_, ?_, ?_, ?_⟩
  · intro h0
    exact runScript_healthNet o nowD nowSec h0
  · intro hW0 hH
    rw [runScript_unhealthy o nowD nowSec hW0 hH]
  · intro hW0 hW1 hH hnt
    rw [runScript_loginNoTok o nowD nowSec hW0 hW1 hH hnt]
  · intro hWT hH hL
    rw [runScript_completes o nowD nowSec hWT hH hL]

theorem claim_C4_witness :
    oracleHealthDown 0 = Resp.netError ∧
    (runScript oracleHealthDown demoDate 0).exit = ExitKind.exited 1 ∧
    (runScript oracleLoginFail demoDate 0).exit = ExitKind.exited 1 ∧
    (runScript oracleAllOk demoDate 0).exit = ExitKind.completed := by
  refine ⟨rfl, ?_, ?_, ?_⟩
  · rw [(claim_C4 oracleHealthDown demoDate 0).1 rfl]
  · exact (claim_C4 oracleLoginFail demoDate 0).2.2.1 (by decide) (by decide)
      (by decide) (by decide)
  · exact (claim_C4 oracleAllOk demoDate 0).2.2.2 WT_oracleAllOk (by decide)
      (by decide)

theorem claim_C4_cex :
    oracleNetUser 2 = Resp.netError ∧
    (runScript oracleNetUser demoDate 0).exit = ExitKind.crashed := by
  exact ⟨rfl, by decide⟩

/-- C1 (amended): the PATCH step targets exactly index range 0–6
(IN_PROGRESS) and index range 9–13 (COMPLETED) of the authored plan list,
skipping every index without a collected plan id and substituting
nothing; the today-afternoon plans at indices 7 and 8 are authored as
"today" plans yet receive no status patch (see the counterexample). -/
theorem claim_C1 (o : Nat → Resp) (nowD : Date) (nowSec : Nat)
    (hWT : ∀ k, WTResp (o k) = true)
    (hH : healthOkB (o 0) = true) (hL : loginOkB (o 1) = true) :
    (runScript o nowD nowSec).trace.filter (fun r => r.method == "PATCH") =
      patchTraceSpec (tokStrSpec o) (planIdsSpec o 20 0 planRecs []) "IN_PROGRESS"
        [0, 1, 2, 3, 4, 5, 6] ++
      patchTraceSpec (tokStrSpec o) (planIdsSpec o 20 0 planRecs []) "COMPLETED"
        [9, 10, 11, 12, 13] := by
  rw [runScript_completes o nowD nowSec hWT hH hL]
  simp [fullTraceSpec, List.filter_append, patchTraceSpec_filter,
    usersTraceSpec, machinesTraceSpec, plansTraceSpec, logsTraceSpec,
    downTraceSpec, userRecs, machineRecs, planRecs, logRecs, downRecs]

theorem claim_C1_witness :
    (∀ k, WTResp (oracleAllOk k) = true) ∧ healthOkB (oracleAllOk 0) = true ∧
    loginOkB (oracleAllOk 1) = true ∧
    (runScript oracleAllOk demoDate 0).trace.filter (fun r => r.method == "PATCH") =
      patchTraceSpec (tokStrSpec oracleAllOk)
        (planIdsSpec oracleAllOk 20 0 planRecs []) "IN_PROGRESS"
        [0, 1, 2, 3, 4, 5, 6] ++
      patchTraceSpec (tokStrSpec oracleAllOk)
        (planIdsSpec oracleAllOk 20 0 planRecs []) "COMPLETED"
        [9, 10, 11, 12, 13] :=
  ⟨WT_oracleAllOk, by decide, by decide,
    claim_C1 oracleAllOk demoDate 0 WT_oracleAllOk (by decide) (by decide)⟩

theorem claim_C1_cex :
    (planRecs.get? 7).map PlanRec.dateSel = some 0 ∧
    succB (respOf oracleAllOk 27) = true ∧
    countReq (runScript oracleAllOk demoDate 0).trace "PATCH" "/api/v1/plans/8" = 0 := by
  refine ⟨rfl, by decide, ?_⟩
  rw [runScript_completes oracleAllOk demoDate 0 WT_oracleAllOk (by decide) (by decide)]
  decide

/-- C6 (amended): with a healthy API, a successful login and exactly two
machines answering "already exists", the run completes with no fatal
abort and both duplicates are counted as success — but the console
reports all 8 machines with the same "Created:" ok line and no line at
all mentions "already exists" (the claimed 6 created / 2 already-exists
report split does not happen; see the counterexample). -/
theorem claim_C6 :
    (runScript oracleTwoDup demoDate 0).exit = ExitKind.completed ∧
    machineCondB (respOf oracleTwoDup 12) = true ∧
    machineCondB (respOf oracleTwoDup 13) = true ∧
    ((runScript oracleTwoDup demoDate 0).out.filter
      (fun l => isOkL l && lineMentions "Created:" l)).length = 8 := by
  have hrun := runScript_completes oracleTwoDup demoDate 0 WT_oracleTwoDup
    (by decide) (by decide)
  refine ⟨?_, by decide, by decide, ?_⟩
  · rw [hrun]
  · rw [hrun]
    decide

theorem claim_C6_cex :
    ((runScript oracleTwoDup demoDate 0).out.filter
      (fun l => lineMentions "already exists" l)).length = 0 := by
  rw [runScript_completes oracleTwoDup demoDate 0 WT_oracleTwoDup
    (by decide) (by decide)]
  decide

/-- C7: every plan payload's machine_id is the identifier resolved from
the machine-listing response when the plan's code is present in the built
map, and the authored static fallback identifier otherwise; an HTTP-error
listing yields the empty map, so every payload then uses its fallback. -/
theorem claim_C7 (o : Nat → Resp) (nowD : Date) (nowSec : Nat)
    (hWT : ∀ k, WTResp (o k) = true)
    (hH : healthOkB (o 0) = true) (hL : loginOkB (o 1) = true) :
    (runScript o nowD nowSec).trace.filter
        (fun r => r.method == "POST" && r.path == "/api/v1/plans") =
      plansTraceSpec (tokStrSpec o)
        (machineMapSpec (jGetD (respOf o 19) "machines" (J.jarr [])))
        (todayStr nowD, yesterdayStr nowD, twoDaysAgoStr nowD) planRecs ∧
    (∀ mm dates p, jGetD (mkPlanJ mm dates p) "machine_id" J.null =
      (List.lookup p.code mm).getD (J.jnum p.fb)) ∧
    (∀ c b, machineMapSpec (jGetD (httpErrObj c b) "machines" (J.jarr [])) = []) := by
  refine ⟨?_, ?_, ?_⟩
  · rw [runScript_completes o nowD nowSec hWT hH hL]
    simp [fullTraceSpec, List.filter_append, patchTraceSpec_filter_plans,
      usersTraceSpec, machinesTraceSpec, plansTraceSpec, logsTraceSpec,
      downTraceSpec, userRecs, machineRecs, planRecs, logRecs, downRecs]
  · intro mm dates p
    simp [mkPlanJ, jGetD]
  · intro c b
    simp [httpErrObj, machineMapSpec, machineMapSpecGo, jGetD, List.lookup]

theorem claim_C7_witness :
    (∀ k, WTResp (oracleListFail k) = true) ∧
    healthOkB (oracleListFail 0) = true ∧ loginOkB (oracleListFail 1) = true ∧
    machineMapSpec (jGetD (respOf oracleListFail 19) "machines" (J.jarr [])) = [] ∧
    ((runScript oracleListFail demoDate 0).trace.filter
        (fun r => r.method == "POST" && r.path == "/api/v1/plans") =
      plansTraceSpec (tokStrSpec oracleListFail)
        (machineMapSpec (jGetD (respOf oracleListFail 19) "machines" (J.jarr [])))
        (todayStr demoDate, yesterdayStr demoDate, twoDaysAgoStr demoDate) planRecs ∧
    (∀ mm dates p, jGetD (mkPlanJ mm dates p) "machine_id" J.null =
      (List.lookup p.code mm).getD (J.jnum p.fb)) ∧
    (∀ c b, machineMapSpec (jGetD (httpErrObj c b) "machines" (J.jarr [])) = [])) :=
  ⟨WT_oracleListFail, by decide, by decide, rfl,
    claim_C7 oracleListFail demoDate 0 WT_oracleListFail (by decide) (by decide)⟩


theorem claim_C5_witness :
    demoDate.validB = true ∧ 1001 ≤ demoDate.year ∧ demoDate.year ≤ 9999 ∧
    (yesterdayStr demoDate = fmtDate (calPredD demoDate) ∧
     twoDaysAgoStr demoDate = fmtDate (calPredD (calPredD demoDate)) ∧
     isYMDfmt (todayStr demoDate) = true ∧
     isYMDfmt (yesterdayStr demoDate) = true ∧
     isYMDfmt (twoDaysAgoStr demoDate) = true) :=
  ⟨by decide, by decide, by decide,
    claim_C5 demoDate (by decide) (by decide) (by decide)⟩
